import Mathlib

/-!
Shallow embedding of the `dss-plugin-timeseries-forecast` excerpt:
  * `python-lib/constants.py`
  * `python-lib/gluonts_forecasts/model.py` (class `Model`)
  * `custom-recipes/time-series-forecast-python-1-train-evaluate/recipe.py`

External code (the GluonTS library, pandas, the repository's `ModelHandler`,
`GlobalModels` and util helpers that are not part of the excerpt) is kept
abstract: its behaviour is a parameter (`Env`) of every embedded operation,
and its opaque runtime objects (estimators, predictors, forecasts, MXNet
contexts, pandas Series) are plain carrier types.  Python dictionaries are
insertion-ordered association lists, pandas DataFrames are a list of column
names plus rows of association lists, Python exceptions are `Except` values.
-/

/-- Opaque handle for a GluonTS estimator object. -/
structure EstimatorObj where
  id : Nat
deriving DecidableEq, Repr

/-- Opaque handle for a GluonTS predictor object. -/
structure Predictor where
  id : Nat
deriving DecidableEq, Repr

/-- Opaque handle for a GluonTS trainer object. -/
structure Trainer where
  id : Nat
deriving DecidableEq, Repr

/-- Opaque handle for a GluonTS sample forecast object. -/
structure Forecast where
  id : Nat
deriving DecidableEq, Repr

/-- Opaque handle for an MXNet context object. -/
structure MXContext where
  id : Nat
deriving DecidableEq, Repr

/-- A pandas Series as used here: an opaque payload plus the name that
`.rename` manipulates. -/
structure Series where
  name : String
  id : Nat
deriving DecidableEq, Repr

/-- JSON values, the image of Python objects under `json.dumps`. -/
inductive Json where
  | str : String → Json
  | int : Int → Json
  | bool : Bool → Json
  | null : Json
  | arr : List Json → Json
  | obj : List (String × Json) → Json

/-- Values stored in metric DataFrame cells and metric dictionaries.
`none` stands for pandas NaN (a missing cell). -/
inductive PyValue where
  | str : String → PyValue
  | num : ℚ → PyValue
  | none : PyValue
deriving DecidableEq, Repr

/-- The Python exceptions the embedded code can raise. -/
inductive PyExc where
  | modelTrainingError : String → PyExc
  | indexError : PyExc
  | keyError : String → PyExc
  | valueError : PyExc
  | zeroDivisionError : PyExc
deriving DecidableEq, Repr

/-- `d[k]` on a Python dict embedded as an insertion-ordered association
list. -/
def alookup (k : String) : List (String × α) → Option α
  | [] => none
  | p :: rest => if p.1 = k then some p.2 else alookup k rest

/-- `d[k] = v` on a Python dict embedded as an insertion-ordered association
list: overwrite in place when the key exists, append otherwise. -/
def setKey (d : List (String × α)) (k : String) (v : α) : List (String × α) :=
  if (alookup k d).isSome then
    d.map (fun p => if p.1 = k then (k, v) else p)
  else
    d ++ [(k, v)]

namespace METRICS_DATASET

def TARGET_COLUMN : String := "target_column"

def MODEL_COLUMN : String := "model"

def AGGREGATED_ROW : String := "aggregated"

def MODEL_PARAMETERS : String := "model_params"

def SESSION : String := "session"

/-- Modelled from the spec: `model.py` reads `METRICS_DATASET.TRAINING_TIME`
(the training-time metrics column) but the provided `constants.py` predates
that attribute; the spec's "training time" column is given its evident label. -/
def TRAINING_TIME : String := "training_time"

end METRICS_DATASET

/-- Insertion-ordered keys of the `EVALUATION_METRICS_DESCRIPTIONS` dict of
`constants.py`; only the key order matters to the embedded code. -/
def EVALUATION_METRICS_DESCRIPTIONS : List (String × String) :=
  [("MSE", "Mean Squared Error"),
   ("MASE", "Mean Absolute Scaled Error"),
   ("MAPE", "Mean Absolute Percentage Error"),
   ("sMAPE", "Symmetric Mean Absolute Percentage Error"),
   ("MSIS", "Mean Scaled Interval Score"),
   ("RMSE", "Root Mean Square Error"),
   ("ND", "Normalized Deviation"),
   ("mean_wQuantileLoss", "Mean Weight Quantile Loss")]

/-- One univariate entry of a `ListDataset` built by the `GluonDataset` class:
the dict keys of `TIMESERIES_KEYS` become fields; `identifiers` is present or
absent, and when present is an insertion-ordered dict of column name to value. -/
structure Timeseries where
  target_name : String
  target : List ℚ
  identifiers : Option (List (String × String))
deriving DecidableEq, Repr

/-- `gluonts.dataset.common.ListDataset`: only its `list_data` list is used. -/
structure ListDataset where
  list_data : List Timeseries
deriving DecidableEq, Repr

/-- What `pandas.tseries.frequencies.to_offset` exposes of an offset here:
its `name` and whether it is an instance of one of the
`CUSTOMISABLE_FREQUENCIES_OFFSETS` classes.

Modelled from the spec: the `CUSTOMISABLE_FREQUENCIES_OFFSETS` tuple is
imported by `model.py` from `constants.py` but absent from the provided
`constants.py`; membership in it is kept abstract as the `customisable` flag. -/
structure OffsetInfo where
  name : String
  customisable : Bool
deriving DecidableEq, Repr

/-- Values placed in `estimator_kwargs` / `trainer_kwargs` dicts. -/
inductive KwargVal where
  | str : String → KwargVal
  | nat : Nat → KwargVal
  | bool : Bool → KwargVal
  | trainer : Trainer → KwargVal
  | ctx : Option MXContext → KwargVal
deriving DecidableEq, Repr

/-- A pandas DataFrame: column names in order, and rows as association lists
from column name to cell value (a missing pair is a NaN cell). -/
structure DataFrame where
  cols : List String
  rows : List (List (String × PyValue))
deriving DecidableEq, Repr

/-- `df[c] = v` with a scalar `v`: broadcast to every row; a new column is
appended after the existing ones. -/
def DataFrame.setColumnScalar (df : DataFrame) (c : String) (v : PyValue) : DataFrame :=
  { cols := if df.cols.contains c then df.cols else df.cols ++ [c]
    rows := df.rows.map (fun r => setKey r c v) }

/-- `df[c] = vs` with a list `vs`: pandas raises `ValueError` unless the list
length equals the number of rows. -/
def DataFrame.setColumnList (df : DataFrame) (c : String) (vs : List PyValue) :
    Except PyExc DataFrame :=
  if vs.length = df.rows.length then
    .ok { cols := if df.cols.contains c then df.cols else df.cols ++ [c]
          rows := (df.rows.zip vs).map (fun rv => setKey rv.1 c rv.2) }
  else
    .error .valueError

/-- `df.append(d, ignore_index=True)` with a dict `d`: one new row holding the
dict entries, the dict's new keys appended to the columns. -/
def DataFrame.appendRow (df : DataFrame) (d : List (String × PyValue)) : DataFrame :=
  { cols := df.cols ++ (d.map Prod.fst).filter (fun k => !df.cols.contains k)
    rows := df.rows ++ [d] }

/-- `df[sel]` column selection: `KeyError` when a requested column is absent,
otherwise the frame restricted to `sel` in that order (absent cells are NaN). -/
def DataFrame.select (df : DataFrame) (sel : List String) : Except PyExc DataFrame :=
  match sel.find? (fun c => !df.cols.contains c) with
  | some c => .error (.keyError c)
  | none =>
      .ok { cols := sel
            rows := df.rows.map (fun r => sel.map (fun c => (c, ((alookup c r).getD .none)))) }

/-- Python's `round` on a real value: nearest integer, ties to even. -/
def pythonRound (q : ℚ) : ℤ :=
  if q - ⌊q⌋ < 1/2 then ⌊q⌋
  else if q - ⌊q⌋ > 1/2 then ⌊q⌋ + 1
  else if ⌊q⌋ % 2 = 0 then ⌊q⌋ else ⌊q⌋ + 1

/-- Python's `round(x, 2)`: rounding to two decimal places. -/
def round2 (q : ℚ) : ℚ := (pythonRound (q * 100) : ℚ) / 100

/-- Minimal escaping done by `json.dumps` on the strings of this program. -/
def jsonEscape (s : String) : String :=
  String.join (s.toList.map (fun c =>
    if c = '"' then "\\\"" else if c = '\\' then "\\\\" else String.singleton c))

mutual

/-- `json.dumps` with its default separators. -/
def Json.render : Json → String
  | .str s => "\"" ++ jsonEscape s ++ "\""
  | .int n => toString n
  | .bool b => if b then "true" else "false"
  | .null => "null"
  | .arr l => "[" ++ Json.renderArr l ++ "]"
  | .obj l => "\x7b" ++ Json.renderObj l ++ "\x7d"

def Json.renderArr : List Json → String
  | [] => ""
  | [j] => Json.render j
  | j :: rest => Json.render j ++ ", " ++ Json.renderArr rest

def Json.renderObj : List (String × Json) → String
  | [] => ""
  | [(k, j)] => "\"" ++ jsonEscape k ++ "\": " ++ Json.render j
  | (k, j) :: rest => "\"" ++ jsonEscape k ++ "\": " ++ Json.render j ++ ", " ++ Json.renderObj rest

end

/-- Behaviour of everything outside the excerpt: the GluonTS library, pandas
offset parsing, and the repository's `ModelHandler` and util helpers.
`ModelHandler` methods are keyed by the model name that determines them.
`estimator_train` returns `Except.error msg` when `estimator.train` raises an
exception whose message is `msg`.  `eval_elapsed` / `retrain_elapsed` are the
`perf_counter` durations of the two timed blocks. -/
structure Env where
  to_offset : String → OffsetInfo
  can_use_external_feature : String → Bool
  can_use_seasonality : String → Bool
  get_label : String → String
  handler_trainer : String → List (String × KwargVal) → Option Trainer
  handler_estimator : String → Json → List (String × KwargVal) → Option EstimatorObj
  handler_predictor : String → List (String × KwargVal) → Predictor
  needs_num_samples : String → Bool
  estimator_train : EstimatorObj → ListDataset → Except String Predictor
  make_evaluation_predictions : Predictor → ListDataset → Nat →
    List (String × PyValue) × DataFrame × List Forecast
  quantile_forecasts_series : Forecast → ℚ → String → Series
  concat_timeseries_per_identifiers :
    List (Option (List (String × String)) × List Series) → List DataFrame
  concat_all_timeseries : List DataFrame → DataFrame
  ctx_str : MXContext → String
  eval_elapsed : ℚ
  retrain_elapsed : ℚ

/-- The mutable attributes of a `Model` instance (class `Model(ModelHandler)`
of `model.py`). -/
structure ModelState where
  model_name : String
  model_parameters : Json
  custom_frequency : String
  frequency : String
  prediction_length : Nat
  epoch : Nat
  use_external_features : Bool
  use_seasonality : Bool
  mxnet_context : Option MXContext
  estimator_kwargs : List (String × KwargVal)
  batch_size : Option Nat
  num_batches_per_epoch : Option Nat
  trainer : Option Trainer
  season_length : Option Nat
  estimator : Option EstimatorObj
  predictor : Option Predictor
  evaluation_time : ℚ
  retraining_time : ℚ

/-- Lines 67-73 of model.py: the `trainer_kwargs` dict. -/
def Model.initTrainerKwargs (epoch : Nat) (batch_size num_batches_per_epoch : Option Nat)
    (mxnet_context : Option MXContext) : List (String × KwargVal) :=
  let tk := [(("ctx" : String), KwargVal.ctx mxnet_context),
             (("epochs" : String), KwargVal.nat epoch)]
  let tk := match batch_size with
            | some b => setKey tk ("batch_size") (KwargVal.nat b)
            | none => tk
  match num_batches_per_epoch with
  | some nb => setKey tk ("num_batches_per_epoch") (KwargVal.nat nb)
  | none => tk

/-- Lines 63-83 of model.py: the successive updates of `estimator_kwargs`. -/
def Model.initEstimatorKwargs (freq : String) (prediction_length : Nat)
    (tr : Option Trainer) (use_seas : Bool) (season_length : Option Nat)
    (uef : Bool) : List (String × KwargVal) :=
  let ek := [(("freq" : String), KwargVal.str freq),
             (("prediction_length" : String), KwargVal.nat prediction_length)]
  let ek := match tr with
            | some t => setKey ek ("trainer") (KwargVal.trainer t)
            | none => ek
  let ek := match season_length with
            | some s => if use_seas then setKey ek ("season_length") (KwargVal.nat s) else ek
            | none => ek
  if uef then setKey ek ("use_feat_dynamic_real") (KwargVal.bool true) else ek

/-- `Model.__init__` (model.py lines 39-87), in source order. -/
def Model.init (env : Env) (model_name : String) (model_parameters : Json)
    (frequency : String) (prediction_length : Nat) (epoch : Nat)
    (use_external_features : Bool := false) (batch_size : Option Nat := none)
    (num_batches_per_epoch : Option Nat := none) (season_length : Option Nat := none)
    (mxnet_context : Option MXContext := none) : ModelState :=
  let freq :=
    if !(env.to_offset frequency).customisable then frequency
    else ((env.to_offset frequency).name.splitOn ("-")).headD ("")
  let uef := use_external_features && env.can_use_external_feature model_name
  let use_seas := env.can_use_seasonality model_name
  let tk := Model.initTrainerKwargs epoch batch_size num_batches_per_epoch mxnet_context
  let tr := env.handler_trainer model_name tk
  let ek := Model.initEstimatorKwargs freq prediction_length tr use_seas season_length uef
  { model_name := model_name
    model_parameters := model_parameters
    custom_frequency := frequency
    frequency := freq
    prediction_length := prediction_length
    epoch := epoch
    use_external_features := uef
    use_seasonality := use_seas
    mxnet_context := if tr.isSome then mxnet_context else none
    estimator_kwargs := ek
    batch_size := batch_size
    num_batches_per_epoch := num_batches_per_epoch
    trainer := tr
    season_length := season_length
    estimator := env.handler_estimator model_name model_parameters ek
    predictor := none
    evaluation_time := 0
    retraining_time := 0 }

/-- Calls into external training/evaluation code, recorded in order. -/
inductive Event where
  | trainedOn : EstimatorObj → ListDataset → Event
  | predictorFromHandler : Event
  | evaluatedOn : Predictor → ListDataset → Event
deriving DecidableEq, Repr

/-- `Model._train_estimator` (model.py lines 203-225), with the trace of its
calls into the external library. -/
def Model._train_estimator (env : Env) (m : ModelState)
    (train_list_dataset : ListDataset) : Except PyExc Predictor × List Event :=
  let kwargs := [(("freq" : String), KwargVal.str m.frequency),
                 (("prediction_length" : String), KwargVal.nat m.prediction_length)]
  match m.estimator with
  | none =>
      let kwargs :=
        if env.needs_num_samples m.model_name then setKey kwargs ("num_samples") (KwargVal.nat 100)
        else kwargs
      let kwargs :=
        match m.season_length with
        | some s =>
            if m.use_seasonality && (s != 0) then setKey kwargs ("season_length") (KwargVal.nat s)
            else kwargs
        | none => kwargs
      (.ok (env.handler_predictor m.model_name kwargs), [.predictorFromHandler])
  | some est =>
      match env.estimator_train est train_list_dataset with
      | .ok p => (.ok p, [.trainedOn est train_list_dataset])
      | .error err =>
          (.error (.modelTrainingError
              ("GluonTS \x27" ++ m.model_name ++
               "\x27 model crashed during training. Full error: " ++ err)),
           [.trainedOn est train_list_dataset])

/-- `Model.train` (model.py lines 92-103). -/
def Model.train (env : Env) (m : ModelState) (train_list_dataset : ListDataset)
    (reinit : Bool := true) : Except PyExc ModelState × List Event :=
  let m := if reinit then
      { m with estimator := env.handler_estimator m.model_name m.model_parameters m.estimator_kwargs }
    else m
  match Model._train_estimator env m train_list_dataset with
  | (.ok p, tr) =>
      (.ok { m with predictor := some p, retraining_time := env.retrain_elapsed }, tr)
  | (.error e, tr) => (.error e, tr)

/-- `Model._make_evaluation_predictions` (model.py lines 140-156): a direct
call into the external evaluator, with `num_samples=100`. -/
def Model._make_evaluation_predictions (env : Env) (predictor : Predictor)
    (test_list_dataset : ListDataset) :
    (List (String × PyValue) × DataFrame × List Forecast) × List Event :=
  (env.make_evaluation_predictions predictor test_list_dataset 100,
   [.evaluatedOn predictor test_list_dataset])

/-- `univariate_timeseries[TIMESERIES_KEYS.IDENTIFIERS][identifiers_column]`
(model.py line 180): `KeyError` when the series has no identifiers dict or the
dict lacks the column. -/
def idLookup (ts : Timeseries) (c : String) : Except PyExc PyValue :=
  match ts.identifiers with
  | some ids =>
      match alookup c ids with
      | some v => .ok (.str v)
      | none => .error (.keyError c)
  | none => .error (.keyError ("identifiers"))

/-- Append one value to the list held at key `c` of a dict of lists. -/
def dictAppend (d : List (String × List PyValue)) (c : String) (v : PyValue) :
    List (String × List PyValue) :=
  d.map (fun p => if p.1 = c then (p.1, p.2 ++ [v]) else p)

/-- Inner loop of model.py lines 179-180: for one series, append its value for
each identifier column to the accumulated dict of lists. -/
def appendIdValues (acc : List (String × List PyValue)) (ts : Timeseries) :
    List String → Except PyExc (List (String × List PyValue))
  | [] => .ok acc
  | c :: cs => do
      let v ← idLookup ts c
      appendIdValues (dictAppend acc c v) ts cs

/-- Outer loop of model.py lines 177-180 (identifier part): accumulate the
per-column value lists over the series in dataset order. -/
def buildIdValues (idcols : List String) (acc : List (String × List PyValue)) :
    List Timeseries → Except PyExc (List (String × List PyValue))
  | [] => .ok acc
  | ts :: rest => do
      let acc ← appendIdValues acc ts idcols
      buildIdValues idcols acc rest

/-- Loop of model.py lines 186-188: assign each identifier column of
`item_metrics` from the collected values and mark it `aggregated` in
`agg_metrics`. -/
def applyIdColumns (item : DataFrame) (agg : List (String × PyValue))
    (idcols : List String) (vals : List (String × List PyValue)) :
    Except PyExc (DataFrame × List (String × PyValue)) :=
  match idcols with
  | [] => .ok (item, agg)
  | c :: cs => do
      let item ← item.setColumnList c ((alookup c vals).getD [])
      let agg := setKey agg c (.str METRICS_DATASET.AGGREGATED_ROW)
      applyIdColumns item agg cs vals

/-- `Model._get_model_parameters_json` before `json.dumps`
(model.py lines 227-248): the `model_params` dict. -/
def Model._get_model_parameters_obj (env : Env) (m : ModelState)
    (train_list_dataset : ListDataset) : Except PyExc Json :=
  let timeseries_number := train_list_dataset.list_data.length
  let timeseries_total_length :=
    (train_list_dataset.list_data.map (fun ts => ts.target.length)).sum
  if timeseries_number = 0 then .error .zeroDivisionError
  else
    let model_params : List (String × Json) :=
      [(("model_name" : String), Json.str (env.get_label m.model_name)),
       (("frequency" : String), Json.str m.frequency),
       (("prediction_length" : String), Json.int m.prediction_length),
       (("use_external_features" : String), Json.bool m.use_external_features),
       (("timeseries_number" : String), Json.int timeseries_number),
       (("timeseries_average_length" : String),
        Json.int (pythonRound ((timeseries_total_length : ℚ) / (timeseries_number : ℚ)))),
       (("model_parameters" : String), m.model_parameters)]
    let jsonOfOptNat : Option Nat → Json := fun o =>
      match o with
      | some n => Json.int n
      | none => Json.null
    let model_params :=
      if m.trainer.isSome then
        setKey (setKey (setKey model_params ("epoch") (Json.int m.epoch))
            ("batch_size") (jsonOfOptNat m.batch_size))
          ("num_batches_per_epoch") (jsonOfOptNat m.num_batches_per_epoch)
      else model_params
    let model_params :=
      if m.use_seasonality && m.season_length.isSome then
        setKey model_params ("season_length") (jsonOfOptNat m.season_length)
      else model_params
    let model_params :=
      match m.mxnet_context with
      | some c => setKey model_params ("mxnet.context") (Json.str (env.ctx_str c))
      | none => model_params
    .ok (Json.obj model_params)

/-- `Model._get_model_parameters_json` (model.py lines 227-248). -/
def Model._get_model_parameters_json (env : Env) (m : ModelState)
    (train_list_dataset : ListDataset) : Except PyExc String := do
  let j ← Model._get_model_parameters_obj env m train_list_dataset
  .ok (Json.render j)

/-- `Model._format_metrics` (model.py lines 158-201). -/
def Model._format_metrics (env : Env) (m : ModelState)
    (agg_metrics : List (String × PyValue)) (item_metrics : DataFrame)
    (train_list_dataset : ListDataset) :
    Except PyExc (DataFrame × List String) := do
  let item_metrics :=
    item_metrics.setColumnScalar METRICS_DATASET.MODEL_COLUMN (.str (env.get_label m.model_name))
  let agg_metrics :=
    setKey agg_metrics METRICS_DATASET.MODEL_COLUMN (.str (env.get_label m.model_name))
  let first ← match train_list_dataset.list_data.head? with
    | some ts => Except.ok ts
    | none => Except.error PyExc.indexError
  let identifiers_columns := match first.identifiers with
    | some ids => ids.map Prod.fst
    | none => []
  let target_columns :=
    train_list_dataset.list_data.map (fun ts => PyValue.str ts.target_name)
  let identifiers_values ← buildIdValues identifiers_columns
    (identifiers_columns.map (fun c => (c, []))) train_list_dataset.list_data
  let item_metrics ← item_metrics.setColumnList METRICS_DATASET.TARGET_COLUMN target_columns
  let agg_metrics :=
    setKey agg_metrics METRICS_DATASET.TARGET_COLUMN (.str METRICS_DATASET.AGGREGATED_ROW)
  let agg_metrics :=
    setKey agg_metrics METRICS_DATASET.TRAINING_TIME
      (.num (round2 (m.evaluation_time + m.retraining_time)))
  let ia ← applyIdColumns item_metrics agg_metrics identifiers_columns identifiers_values
  let metrics := ia.1.appendRow ia.2
  let metrics ← metrics.select
    ([METRICS_DATASET.TARGET_COLUMN] ++ identifiers_columns ++ [METRICS_DATASET.MODEL_COLUMN]
      ++ EVALUATION_METRICS_DESCRIPTIONS.map Prod.fst ++ [METRICS_DATASET.TRAINING_TIME])
  let mp ← Model._get_model_parameters_json env m train_list_dataset
  let metrics := metrics.setColumnScalar METRICS_DATASET.MODEL_PARAMETERS (.str mp)
  .ok (metrics, identifiers_columns)

/-- Comparison used by Python's `sorted` on `(key, value)` identifier pairs. -/
def pairLe (a b : String × String) : Bool :=
  a.1 < b.1 || (a.1 = b.1 && a.2 ≤ b.2)

/-- `tuple(sorted(identifiers.items()))` (model.py line 266). -/
def sortedIdentifiers (ids : List (String × String)) : List (String × String) :=
  ids.mergeSort pairLe

/-- The grouping key of one series (model.py lines 265-268): its sorted
identifier items, or `none` when the series has no identifiers. -/
def timeseriesIdentifierKey (ts : Timeseries) : Option (List (String × String)) :=
  ts.identifiers.map sortedIdentifiers

/-- Lines 270-273 of model.py: insert a series in the dict of groups, Python
dict order (new keys appended, existing groups extended in place). -/
def addToGroups (d : List (Option (List (String × String)) × List Series))
    (k : Option (List (String × String))) (s : Series) :
    List (Option (List (String × String)) × List Series) :=
  match d with
  | [] => [(k, [s])]
  | (k0, l) :: rest =>
      if k0 = k then (k0, l ++ [s]) :: rest else (k0, l) :: addToGroups rest k s

/-- `Model._compute_median_forecasts_timeseries` (model.py lines 250-274). -/
def Model._compute_median_forecasts_timeseries (env : Env) (m : ModelState)
    (forecasts_list : List Forecast) (train_list_dataset : ListDataset) :
    Except PyExc (List (Option (List (String × String)) × List Series)) :=
  if forecasts_list.length ≤ train_list_dataset.list_data.length then
    .ok ((forecasts_list.zip train_list_dataset.list_data).foldl
      (fun d fts =>
        let series : Series :=
          { env.quantile_forecasts_series fts.1 ((1 : ℚ)/2) m.custom_frequency with
            name := m.model_name ++ "_" ++ fts.2.target_name }
        addToGroups d (timeseriesIdentifierKey fts.2) series) [])
  else .error .indexError

/-- `Model.train_evaluate` (model.py lines 105-138), with the trace of calls
into the external library. -/
def Model.train_evaluate (env : Env) (m : ModelState)
    (train_list_dataset test_list_dataset : ListDataset)
    (make_forecasts : Bool := false) (retrain : Bool := false) :
    Except PyExc (ModelState × DataFrame × List String × Option DataFrame) × List Event :=
  match Model._train_estimator env m train_list_dataset with
  | (.error e, tr1) => (.error e, tr1)
  | (.ok evaluation_predictor, tr1) =>
      let r2 := Model._make_evaluation_predictions env evaluation_predictor test_list_dataset
      let agg_metrics := r2.1.1
      let item_metrics := r2.1.2.1
      let forecasts := r2.1.2.2
      let tr2 := r2.2
      let m := { m with evaluation_time := env.eval_elapsed }
      match (if retrain then Model.train env m test_list_dataset true else (.ok m, [])) with
      | (.error e, tr3) => (.error e, tr1 ++ tr2 ++ tr3)
      | (.ok m, tr3) =>
          match Model._format_metrics env m agg_metrics item_metrics train_list_dataset with
          | .error e => (.error e, tr1 ++ tr2 ++ tr3)
          | .ok (metrics, identifiers_columns) =>
              if make_forecasts then
                match Model._compute_median_forecasts_timeseries env m forecasts train_list_dataset with
                | .error e => (.error e, tr1 ++ tr2 ++ tr3)
                | .ok median_forecasts_timeseries =>
                    let multiple_df := env.concat_timeseries_per_identifiers median_forecasts_timeseries
                    let forecasts_df := env.concat_all_timeseries multiple_df
                    (.ok (m, metrics, identifiers_columns, some forecasts_df), tr1 ++ tr2 ++ tr3)
              else
                (.ok (m, metrics, identifiers_columns, none), tr1 ++ tr2 ++ tr3)

/-- The externally observable steps of the train-evaluate recipe script
(recipe.py), in program order. -/
inductive RecipeStep where
  | initAllModels : RecipeStep
  | evaluateAll : RecipeStep
  | fitAll : RecipeStep
  | saveAll : RecipeStep
  | writeDataset : String → RecipeStep
  | setColumnDescription : String → RecipeStep
deriving DecidableEq, Repr

/-- The step sequence of recipe.py lines 34-53 as a function of the
`make_forecasts` parameter. -/
def recipe (make_forecasts : Bool) : List RecipeStep :=
  [RecipeStep.initAllModels, RecipeStep.evaluateAll, RecipeStep.fitAll, RecipeStep.saveAll,
   RecipeStep.writeDataset ("evaluation_dataset"),
   RecipeStep.setColumnDescription ("evaluation_dataset")]
  ++ (if make_forecasts then
      [RecipeStep.writeDataset ("evaluation_forecasts"),
       RecipeStep.setColumnDescription ("evaluation_forecasts")]
    else [])


/-- Whether a recipe step writes an output dataset. -/
def RecipeStep.isWrite : RecipeStep → Bool
  | .writeDataset _ => true
  | _ => false

/-- Whether a recipe step reads or writes the named output dataset. -/
def RecipeStep.touches (name : String) : RecipeStep → Bool
  | .writeDataset n => n = name
  | .setColumnDescription n => n = name
  | _ => false

/-- Whether a recipe step is one of: evaluating, fitting, writing. -/
def RecipeStep.isEvalFitOrWrite : RecipeStep → Bool
  | .evaluateAll => true
  | .fitAll => true
  | .writeDataset _ => true
  | _ => false

/-- The metrics DataFrame of a `_format_metrics` result (junk on error). -/
def fmDf (r : Except PyExc (DataFrame × List String)) : DataFrame :=
  (r.toOption.map Prod.fst).getD ⟨[], []⟩

/-- The identifiers-columns list of a `_format_metrics` result (junk on error). -/
def fmCols (r : Except PyExc (DataFrame × List String)) : List String :=
  (r.toOption.map Prod.snd).getD []

/-- The field list of an `_get_model_parameters_obj` result (junk otherwise). -/
def objFields : Except PyExc Json → List (String × Json)
  | .ok (.obj l) => l
  | _ => []

/-- A concrete environment used to instantiate the theorems below. -/
def envW : Env where
  to_offset := fun s => { name := s, customisable := s = "W-MON" }
  can_use_external_feature := fun _ => true
  can_use_seasonality := fun _ => false
  get_label := fun n => n
  handler_trainer := fun _ _ => some ⟨7⟩
  handler_estimator := fun _ _ _ => some ⟨3⟩
  handler_predictor := fun _ _ => ⟨9⟩
  needs_num_samples := fun _ => false
  estimator_train := fun e ds => if ds.list_data.isEmpty then .error ("boom") else .ok ⟨e.id + 100⟩
  make_evaluation_predictions := fun _ _ _ =>
    (EVALUATION_METRICS_DESCRIPTIONS.map (fun p => (p.1, PyValue.num 3)),
     ⟨EVALUATION_METRICS_DESCRIPTIONS.map Prod.fst,
      [EVALUATION_METRICS_DESCRIPTIONS.map (fun p => (p.1, PyValue.num 1)),
       EVALUATION_METRICS_DESCRIPTIONS.map (fun p => (p.1, PyValue.num 2))]⟩,
     [⟨1⟩, ⟨2⟩])
  quantile_forecasts_series := fun f _ _ => ⟨"q", f.id⟩
  concat_timeseries_per_identifiers := fun _ => []
  concat_all_timeseries := fun _ => ⟨[], []⟩
  ctx_str := fun _ => "ctx"
  eval_elapsed := 2
  retrain_elapsed := 3

/-- A concrete two-series dataset with one identifier column. -/
def dsW : ListDataset :=
  ⟨[{ target_name := "sales", target := [1, 2, 3], identifiers := some [("store", "a")] },
    { target_name := "promo", target := [4, 5], identifiers := some [("store", "b")] }]⟩

/-- The empty dataset. -/
def dsE : ListDataset := ⟨[]⟩

/-- A concrete model state built through `Model.__init__`. -/
def mW : ModelState := Model.init envW ("deepar") Json.null ("D") 2 1

/-- The aggregated metrics dict returned by `envW`'s evaluator. -/
def aggW : List (String × PyValue) :=
  EVALUATION_METRICS_DESCRIPTIONS.map (fun p => (p.1, PyValue.num 3))

/-- The per-series metrics frame returned by `envW`'s evaluator. -/
def itemW : DataFrame :=
  ⟨EVALUATION_METRICS_DESCRIPTIONS.map Prod.fst,
   [EVALUATION_METRICS_DESCRIPTIONS.map (fun p => (p.1, PyValue.num 1)),
    EVALUATION_METRICS_DESCRIPTIONS.map (fun p => (p.1, PyValue.num 2))]⟩

/-- The value a successful `idLookup` produced (junk on error). -/
def idVal (ts : Timeseries) (c : String) : PyValue :=
  match idLookup ts c with
  | .ok v => v
  | .error _ => PyValue.none

/-- A one-series dataset whose identifier column is named `model_params`. -/
def dsMP : ListDataset :=
  ⟨[{ target_name := "sales", target := [1], identifiers := some [("model_params", "x")] }]⟩

/-- A one-row per-series metrics frame for `dsMP`. -/
def itemMP : DataFrame :=
  ⟨EVALUATION_METRICS_DESCRIPTIONS.map Prod.fst,
   [EVALUATION_METRICS_DESCRIPTIONS.map (fun p => (p.1, PyValue.num 1))]⟩

/-- The identifiers-columns list of a `train_evaluate` result (junk on error). -/
def teIdCols (r : Except PyExc (ModelState × DataFrame × List String × Option DataFrame)) :
    List String :=
  (r.toOption.map (fun x => x.2.2.1)).getD []

/-- The metrics DataFrame of a `train_evaluate` result (junk on error). -/
def teMetrics (r : Except PyExc (ModelState × DataFrame × List String × Option DataFrame)) :
    DataFrame :=
  (r.toOption.map (fun x => x.2.1)).getD ⟨[], []⟩

/-- `envW` with an evaluator that returns one metrics row, matching `dsMP`. -/
def envMP : Env :=
  { envW with
    make_evaluation_predictions := fun _ _ _ =>
      (EVALUATION_METRICS_DESCRIPTIONS.map (fun p => (p.1, PyValue.num 3)),
       ⟨EVALUATION_METRICS_DESCRIPTIONS.map Prod.fst,
        [EVALUATION_METRICS_DESCRIPTIONS.map (fun p => (p.1, PyValue.num 1))]⟩,
       [⟨1⟩]) }

/-- Dict lookup for arbitrary (decidable) key types, as `alookup`. -/
def glookup {κ ν : Type} [DecidableEq κ] (k : κ) : List (κ × ν) → Option ν
  | [] => none
  | p :: rest => if p.1 = k then some p.2 else glookup k rest

/-- The groups dict of a `_compute_median_forecasts_timeseries` result
(junk on error). -/
def mfGroups
    (r : Except PyExc (List (Option (List (String × String)) × List Series))) :
    List (Option (List (String × String)) × List Series) :=
  r.toOption.getD []

theorem alookup_append {α : Type} (d e : List (String × α)) (k : String) :
    alookup k (d ++ e) = ((alookup k d).rec (alookup k e) (fun v => some v)) := by
  induction d with
  | nil => simp [alookup]
  | cons a tl ih =>
      by_cases hk : a.1 = k
      · simp [alookup, hk]
      · simp [alookup, hk, ih]

theorem alookup_map_setKey_self {α : Type} (d : List (String × α)) (k : String) (v : α)
    (h : (alookup k d).isSome) :
    alookup k (d.map (fun p => if p.1 = k then (k, v) else p)) = some v := by
  induction d with
  | nil => simp [alookup] at h
  | cons a tl ih =>
      by_cases hk : a.1 = k
      · simp [alookup, hk]
      · simp only [alookup, if_neg hk] at h
        simpa [alookup, hk] using ih h

theorem alookup_map_setKey_ne {α : Type} (d : List (String × α)) (k k' : String) (v : α)
    (h : k ≠ k') :
    alookup k (d.map (fun p => if p.1 = k' then (k', v) else p)) = alookup k d := by
  induction d with
  | nil => simp
  | cons a tl ih =>
      by_cases hk : a.1 = k'
      · have hak : ¬a.1 = k := by rw [hk]; intro hh; exact h hh.symm
        have hk'k : ¬k' = k := fun hh => h hh.symm
        simp [alookup, hk, hak, hk'k, ih]
      · by_cases hak : a.1 = k
        · simp [alookup, hk, hak, h]
        · simp [alookup, hk, hak, ih]

theorem alookup_setKey_self {α : Type} (d : List (String × α)) (k : String) (v : α) :
    alookup k (setKey d k v) = some v := by
  unfold setKey
  split
  · exact alookup_map_setKey_self d k v (by assumption)
  · rename_i h
    rw [alookup_append]
    have : alookup k d = none := by
      cases hd : alookup k d
      · rfl
      · rw [hd] at h; simp at h
    rw [this]
    simp [alookup]

theorem alookup_setKey_ne {α : Type} (d : List (String × α)) (k k' : String) (v : α)
    (h : k ≠ k') : alookup k (setKey d k' v) = alookup k d := by
  unfold setKey
  split
  · exact alookup_map_setKey_ne d k k' v h
  · rw [alookup_append]
    have : alookup k [(k', v)] = none := by
      simp [alookup, Ne.symm h]
    rw [this]
    cases alookup k d <;> rfl

theorem initEstimatorKwargs_freq (freq : String) (pl : Nat) (tr : Option Trainer)
    (us : Bool) (sl : Option Nat) (uef : Bool) :
    alookup ("freq") (Model.initEstimatorKwargs freq pl tr us sl uef)
      = some (KwargVal.str freq) := by
  unfold Model.initEstimatorKwargs
  rcases tr with _ | t <;> rcases sl with _ | s <;> cases us <;> cases uef <;>
    simp [alookup, alookup_setKey_ne]

theorem initEstimatorKwargs_feat_dynamic (freq : String) (pl : Nat) (tr : Option Trainer)
    (us : Bool) (sl : Option Nat) (uef : Bool) :
    alookup ("use_feat_dynamic_real") (Model.initEstimatorKwargs freq pl tr us sl uef)
      = if uef then some (KwargVal.bool true) else none := by
  unfold Model.initEstimatorKwargs
  rcases tr with _ | t <;> rcases sl with _ | s <;> cases us <;> cases uef <;>
    simp [alookup, alookup_setKey_self, alookup_setKey_ne]

/-- Claim C4: `Model.__init__` keeps the input frequency unchanged in
`custom_frequency`; `frequency` equals the input unless the input parses to a
customisable offset, in which case it is the offset name truncated at the
first "-"; and `estimator_kwargs["freq"]` holds that `frequency`. -/
theorem claim_C4_frequency_translation (env : Env) (model_name : String) (mp : Json)
    (frequency : String) (pl ep : Nat) (uef : Bool) (bs nb sl : Option Nat)
    (ctx : Option MXContext) :
    (Model.init env model_name mp frequency pl ep uef bs nb sl ctx).custom_frequency
        = frequency ∧
    (Model.init env model_name mp frequency pl ep uef bs nb sl ctx).frequency
        = (if (env.to_offset frequency).customisable
           then ((env.to_offset frequency).name.splitOn ("-")).headD ("")
           else frequency) ∧
    alookup ("freq")
        (Model.init env model_name mp frequency pl ep uef bs nb sl ctx).estimator_kwargs
      = some (KwargVal.str
          (Model.init env model_name mp frequency pl ep uef bs nb sl ctx).frequency) := by
  refine ⟨rfl, ?_, ?_⟩
  · cases h : (env.to_offset frequency).customisable <;> simp [Model.init, h]
  · cases h : (env.to_offset frequency).customisable <;>
      simp [Model.init, h, initEstimatorKwargs_freq]

/-- Claim C7: the `use_external_features` attribute set by `Model.__init__` is
the conjunction of the constructor argument and the model handler's
capability flag, and `estimator_kwargs` maps `"use_feat_dynamic_real"` to
`True` exactly when that attribute is true. -/
theorem claim_C7_external_features (env : Env) (model_name : String) (mp : Json)
    (frequency : String) (pl ep : Nat) (uef : Bool) (bs nb sl : Option Nat)
    (ctx : Option MXContext) :
    (Model.init env model_name mp frequency pl ep uef bs nb sl ctx).use_external_features
        = (uef && env.can_use_external_feature model_name) ∧
    alookup ("use_feat_dynamic_real")
        (Model.init env model_name mp frequency pl ep uef bs nb sl ctx).estimator_kwargs
      = (if (Model.init env model_name mp frequency pl ep uef bs nb sl ctx).use_external_features
         then some (KwargVal.bool true) else none) := by
  refine ⟨rfl, ?_⟩
  simp [Model.init, initEstimatorKwargs_feat_dynamic]

/-- Claim C6: on a recipe run the evaluation metrics dataset is written and
its column descriptions are set afterwards, and the evaluation forecasts
dataset is written and given column descriptions exactly when
`make_forecasts` is true; when it is false no forecast output appears. -/
theorem claim_C6_column_description_bookkeeping (make_forecasts : Bool) :
    (recipe make_forecasts).filter (RecipeStep.touches ("evaluation_dataset"))
      = [RecipeStep.writeDataset ("evaluation_dataset"),
         RecipeStep.setColumnDescription ("evaluation_dataset")] ∧
    (recipe make_forecasts).filter (RecipeStep.touches ("evaluation_forecasts"))
      = (if make_forecasts then
          [RecipeStep.writeDataset ("evaluation_forecasts"),
           RecipeStep.setColumnDescription ("evaluation_forecasts")]
         else []) := by
  cases make_forecasts <;> exact ⟨rfl, rfl⟩

/-- Claim C9: with `retrain=False`, `train_evaluate` only changes
`evaluation_time` (the successful final state is the input state with just
that field replaced), while `Model.train` on success always stores the newly
trained predictor and the new retraining time. -/
theorem claim_C9_frame_effects (env : Env) (m : ModelState)
    (train_list_dataset test_list_dataset ds : ListDataset) (mf reinit : Bool) :
    ((Model.train_evaluate env m train_list_dataset test_list_dataset mf false).1.toOption.map
        Prod.fst)
      = ((Model.train_evaluate env m train_list_dataset test_list_dataset mf false).1.toOption.map
          (fun _ => { m with evaluation_time := env.eval_elapsed })) ∧
    ((Model.train env m ds reinit).1.toOption.map ModelState.retraining_time)
      = ((Model.train env m ds reinit).1.toOption.map (fun _ => env.retrain_elapsed)) ∧
    ((Model.train env m ds reinit).1.toOption.map ModelState.predictor)
      = ((Model._train_estimator env
            (if reinit then
              { m with estimator :=
                  env.handler_estimator m.model_name m.model_parameters m.estimator_kwargs }
             else m) ds).1.toOption.map some) := by
  refine ⟨?_, ?_, ?_⟩
  · unfold Model.train_evaluate
    cases h1 : Model._train_estimator env m train_list_dataset with
    | mk r1 t1 =>
        cases r1 with
        | error e => simp [Except.toOption]
        | ok p =>
            simp only
            cases hfm : Model._format_metrics env { m with evaluation_time := env.eval_elapsed }
                (Model._make_evaluation_predictions env p test_list_dataset).1.1
                (Model._make_evaluation_predictions env p test_list_dataset).1.2.1
                train_list_dataset with
            | error e => simp [hfm, Except.toOption]
            | ok pr =>
                cases mf with
                | false => simp [hfm, Except.toOption]
                | true =>
                    cases hmed : Model._compute_median_forecasts_timeseries env
                        { m with evaluation_time := env.eval_elapsed }
                        (Model._make_evaluation_predictions env p test_list_dataset).1.2.2
                        train_list_dataset with
                    | error e => simp [hfm, hmed, Except.toOption]
                    | ok med => simp [hfm, hmed, Except.toOption]
  · cases reinit with
    | false =>
        unfold Model.train
        simp only [Bool.false_eq_true, if_false]
        cases h1 : Model._train_estimator env m ds with
        | mk r1 t1 => cases r1 <;> simp [Except.toOption]
    | true =>
        unfold Model.train
        simp only [if_true]
        cases h1 : Model._train_estimator env
            { m with estimator :=
                env.handler_estimator m.model_name m.model_parameters m.estimator_kwargs } ds with
        | mk r1 t1 => cases r1 <;> simp [Except.toOption]
  · cases reinit with
    | false =>
        unfold Model.train
        simp only [Bool.false_eq_true, if_false]
        cases h1 : Model._train_estimator env m ds with
        | mk r1 t1 => cases r1 <;> simp [h1, Except.toOption]
    | true =>
        unfold Model.train
        simp only [if_true]
        cases h1 : Model._train_estimator env
            { m with estimator :=
                env.handler_estimator m.model_name m.model_parameters m.estimator_kwargs } ds with
        | mk r1 t1 => cases r1 <;> simp [h1, Except.toOption]

/-- Claim C5: `_train_estimator` wraps any exception of the external
`estimator.train` into a `ModelTrainingError` carrying the model name and the
original message; with no estimator it returns a handler predictor without
reading the training data; a successful `estimator.train` result is returned
unchanged, and `ModelTrainingError` is raised exactly when an estimator is
present and its training raises. -/
theorem claim_C5_training_error_wrapping (env : Env) (m : ModelState)
    (train_list_dataset : ListDataset) :
    (∀ est, m.estimator = some est →
      (∀ p, env.estimator_train est train_list_dataset = .ok p →
        (Model._train_estimator env m train_list_dataset).1 = .ok p) ∧
      (∀ msg, env.estimator_train est train_list_dataset = .error msg →
        (Model._train_estimator env m train_list_dataset).1
          = .error (.modelTrainingError
              ("GluonTS \x27" ++ m.model_name ++
               "\x27 model crashed during training. Full error: " ++ msg)))) ∧
    (m.estimator = none →
      (∀ ds', Model._train_estimator env m train_list_dataset
            = Model._train_estimator env m ds') ∧
      ∃ kws, (Model._train_estimator env m train_list_dataset).1
          = .ok (env.handler_predictor m.model_name kws)) ∧
    ((∃ e, (Model._train_estimator env m train_list_dataset).1 = .error e) ↔
      (∃ est msg, m.estimator = some est ∧
        env.estimator_train est train_list_dataset = .error msg)) := by
  have hsome : ∀ est, m.estimator = some est →
      (∀ p, env.estimator_train est train_list_dataset = .ok p →
        (Model._train_estimator env m train_list_dataset).1 = .ok p) ∧
      (∀ msg, env.estimator_train est train_list_dataset = .error msg →
        (Model._train_estimator env m train_list_dataset).1
          = .error (.modelTrainingError
              ("GluonTS \x27" ++ m.model_name ++
               "\x27 model crashed during training. Full error: " ++ msg))) := by
    intro est hest
    constructor
    · intro p hp
      simp [Model._train_estimator, hest, hp]
    · intro msg hmsg
      simp [Model._train_estimator, hest, hmsg]
  refine ⟨hsome, ?_, ?_⟩
  · intro hnone
    constructor
    · intro ds'
      simp [Model._train_estimator, hnone]
    · unfold Model._train_estimator
      rw [hnone]
      exact ⟨_, rfl⟩
  · constructor
    · rintro ⟨e, he⟩
      cases hest : m.estimator with
      | none => simp [Model._train_estimator, hest] at he
      | some est =>
          cases htr : env.estimator_train est train_list_dataset with
          | ok p => simp [Model._train_estimator, hest, htr] at he
          | error msg => exact ⟨est, msg, rfl, htr⟩
    · rintro ⟨est, msg, hest, htr⟩
      exact ⟨_, (hsome est hest).2 msg htr⟩

/-- Witness for claim C5 at a concrete model, environment and dataset: the
estimator is present, training on the empty dataset raises, and the raised
error is the wrapped `ModelTrainingError`. -/
theorem claim_C5_witness :
    mW.estimator = some ⟨3⟩ ∧
    envW.estimator_train ⟨3⟩ dsE = .error ("boom") ∧
    (Model._train_estimator envW mW dsE).1
      = .error (.modelTrainingError
          ("GluonTS \x27deepar\x27 model crashed during training. Full error: boom")) :=
  ⟨rfl, rfl, ((claim_C5_training_error_wrapping envW mW dsE).1 ⟨3⟩ rfl).2 ("boom") rfl⟩

/-- Claim C3: in `train_evaluate` the evaluation predictor is trained on the
train dataset, evaluation runs that predictor on the test dataset, a
retraining step exists (trained only on the test dataset) exactly when
`retrain` is true and it comes after the evaluation; at recipe level,
evaluation precedes fitting and every dataset write. -/
theorem claim_C3_train_before_evaluate_before_retrain (env : Env) (m : ModelState)
    (train_list_dataset test_list_dataset : ListDataset) (mf retrain : Bool)
    (est : EstimatorObj) (p : Predictor)
    (hest : m.estimator = some est)
    (hok : (Model._train_estimator env m train_list_dataset).1 = .ok p) :
    (Model.train_evaluate env m train_list_dataset test_list_dataset mf retrain).2
      = [Event.trainedOn est train_list_dataset, Event.evaluatedOn p test_list_dataset]
        ++ (if retrain then
              (Model.train env { m with evaluation_time := env.eval_elapsed }
                test_list_dataset true).2
            else []) ∧
    (∀ e ds, Event.trainedOn e ds ∈
        (Model.train env { m with evaluation_time := env.eval_elapsed }
          test_list_dataset true).2
      → ds = test_list_dataset) ∧
    (recipe mf).filter RecipeStep.isEvalFitOrWrite
      = [RecipeStep.evaluateAll, RecipeStep.fitAll,
         RecipeStep.writeDataset ("evaluation_dataset")]
        ++ (if mf then [RecipeStep.writeDataset ("evaluation_forecasts")] else []) := by
  have h1 : Model._train_estimator env m train_list_dataset
      = (.ok p, [Event.trainedOn est train_list_dataset]) := by
    cases henv : env.estimator_train est train_list_dataset with
    | ok q =>
        have hq : q = p := by
          have h := hok
          simp [Model._train_estimator, hest, henv] at h
          exact h
        subst hq
        simp [Model._train_estimator, hest, henv]
    | error msg =>
        exfalso
        simp [Model._train_estimator, hest, henv] at hok
  refine ⟨?_, ?_, ?_⟩
  · unfold Model.train_evaluate
    rw [h1]
    simp only [Model._make_evaluation_predictions]
    cases retrain with
    | false =>
        simp only [Bool.false_eq_true, if_false]
        cases hfm : Model._format_metrics env { m with evaluation_time := env.eval_elapsed }
            (env.make_evaluation_predictions p test_list_dataset 100).1
            (env.make_evaluation_predictions p test_list_dataset 100).2.1
            train_list_dataset with
        | error e => simp [hfm]
        | ok pr =>
            cases mf with
            | false => simp [hfm]
            | true =>
                cases hmed : Model._compute_median_forecasts_timeseries env
                    { m with evaluation_time := env.eval_elapsed }
                    (env.make_evaluation_predictions p test_list_dataset 100).2.2
                    train_list_dataset with
                | error e => simp [hfm, hmed]
                | ok med => simp [hfm, hmed]
    | true =>
        simp only [if_true]
        cases htr : Model.train env { m with evaluation_time := env.eval_elapsed }
            test_list_dataset true with
        | mk r3 t3 =>
            cases r3 with
            | error e => simp [htr]
            | ok m3 =>
                cases hfm : Model._format_metrics env m3
                    (env.make_evaluation_predictions p test_list_dataset 100).1
                    (env.make_evaluation_predictions p test_list_dataset 100).2.1
                    train_list_dataset with
                | error e => simp [htr, hfm]
                | ok pr =>
                    cases mf with
                    | false => simp [htr, hfm]
                    | true =>
                        cases hmed : Model._compute_median_forecasts_timeseries env m3
                            (env.make_evaluation_predictions p test_list_dataset 100).2.2
                            train_list_dataset with
                        | error e => simp [htr, hfm, hmed]
                        | ok med => simp [htr, hfm, hmed]
  · intro e ds hmem
    unfold Model.train at hmem
    simp only [if_true] at hmem
    revert hmem
    unfold Model._train_estimator
    cases henv : env.handler_estimator m.model_name m.model_parameters m.estimator_kwargs with
    | none =>
        intro hmem
        simp [henv] at hmem
    | some est2 =>
        cases htr2 : env.estimator_train est2 test_list_dataset with
        | ok q =>
            intro hmem
            simp [henv, htr2] at hmem
            exact hmem.2
        | error msg =>
            intro hmem
            simp [henv, htr2] at hmem
            exact hmem.2
  · cases mf <;> rfl

/-- Witness for claim C3: a concrete model with an estimator whose training
on the two-series dataset succeeds; the recorded trace trains on the train
dataset and then evaluates the resulting predictor on the test dataset. -/
theorem claim_C3_witness :
    mW.estimator = some ⟨3⟩ ∧
    (Model._train_estimator envW mW dsW).1 = .ok ⟨103⟩ ∧
    (Model.train_evaluate envW mW dsW dsE false false).2
      = [Event.trainedOn ⟨3⟩ dsW, Event.evaluatedOn ⟨103⟩ dsE] := by
  refine ⟨rfl, rfl, ?_⟩
  have h := (claim_C3_train_before_evaluate_before_retrain envW mW dsW dsE false false
      ⟨3⟩ ⟨103⟩ rfl rfl).1
  simpa using h

theorem pythonRound_nearest (q : ℚ) : |((pythonRound q : ℤ) : ℚ) - q| ≤ 1/2 := by
  have h1 : (⌊q⌋ : ℚ) ≤ q := Int.floor_le q
  have h2 : q < ⌊q⌋ + 1 := Int.lt_floor_add_one q
  unfold pythonRound
  split_ifs with ha hb hc <;> push_cast <;> rw [abs_le] <;> constructor <;> linarith

/-- Claim C8: for a non-empty dataset, `_get_model_parameters_json` returns
the rendering of a JSON object whose `timeseries_number` field is the number
of series and whose `timeseries_average_length` field is the total target
length divided by the number of series, rounded to a nearest integer; the
non-emptiness hypothesis keeps the division-by-zero branch unreachable. -/
theorem claim_C8_model_parameters_json (env : Env) (m : ModelState) (ds : ListDataset)
    (h : ds.list_data ≠ []) :
    Model._get_model_parameters_json env m ds
      = .ok (Json.render (Json.obj
          (objFields (Model._get_model_parameters_obj env m ds)))) ∧
    alookup ("timeseries_number") (objFields (Model._get_model_parameters_obj env m ds))
      = some (Json.int ds.list_data.length) ∧
    alookup ("timeseries_average_length")
        (objFields (Model._get_model_parameters_obj env m ds))
      = some (Json.int (pythonRound
          (((ds.list_data.map (fun ts => ts.target.length)).sum : ℚ)
            / (ds.list_data.length : ℚ)))) ∧
    |((pythonRound (((ds.list_data.map (fun ts => ts.target.length)).sum : ℚ)
          / (ds.list_data.length : ℚ)) : ℤ) : ℚ)
        - ((ds.list_data.map (fun ts => ts.target.length)).sum : ℚ)
          / (ds.list_data.length : ℚ)|
      ≤ 1/2 := by
  have hn : ¬ds.list_data.length = 0 := by
    simpa [List.length_eq_zero] using h
  refine ⟨?_, ?_, ?_, pythonRound_nearest _⟩
  · unfold Model._get_model_parameters_json Model._get_model_parameters_obj
    rw [if_neg hn]
    simp [objFields, bind, Except.bind]
  · unfold Model._get_model_parameters_obj
    rw [if_neg hn]
    simp only [objFields]
    by_cases ht : m.trainer.isSome <;>
      by_cases hs : m.use_seasonality && m.season_length.isSome <;>
        cases hmx : m.mxnet_context <;>
          simp [ht, hs, alookup, alookup_setKey_ne]
  · unfold Model._get_model_parameters_obj
    rw [if_neg hn]
    simp only [objFields]
    by_cases ht : m.trainer.isSome <;>
      by_cases hs : m.use_seasonality && m.season_length.isSome <;>
        cases hmx : m.mxnet_context <;>
          simp [ht, hs, alookup, alookup_setKey_ne]

/-- Witness for claim C8 at the concrete two-series dataset: the dataset is
non-empty and the reported number of series is 2. -/
theorem claim_C8_witness :
    dsW.list_data ≠ [] ∧
    alookup ("timeseries_number") (objFields (Model._get_model_parameters_obj envW mW dsW))
      = some (Json.int 2) :=
  ⟨by decide, (claim_C8_model_parameters_json envW mW dsW (by decide)).2.1⟩

theorem zip_map_left {α β γ : Type} (f : α → γ) :
    ∀ (l₁ : List α) (l₂ : List β), l₂.length = l₁.length →
      (l₁.zip l₂).map (fun p => f p.1) = l₁.map f
  | [], [], _ => rfl
  | [], _ :: _, h => by simp at h
  | _ :: _, [], h => by simp at h
  | a :: l₁, b :: l₂, h => by
      simp only [List.zip_cons_cons, List.map_cons]
      rw [zip_map_left f l₁ l₂ (by simpa using h)]

theorem zip_map_right {α β γ : Type} (f : α → β → γ) :
    ∀ (l₁ : List α) (l₂ : List β), l₂.length = l₁.length →
      (l₁.zip l₂).map (fun p => f p.1 p.2) = List.zipWith f l₁ l₂
  | [], [], _ => rfl
  | [], _ :: _, h => by simp at h
  | _ :: _, [], h => by simp at h
  | a :: l₁, b :: l₂, h => by
      simp only [List.zip_cons_cons, List.map_cons, List.zipWith_cons_cons]
      rw [zip_map_right f l₁ l₂ (by simpa using h)]

theorem zipWith_const_right {α β : Type} :
    ∀ (l₁ : List α) (l₂ : List β), l₂.length = l₁.length →
      List.zipWith (fun _ v => some v) l₁ l₂ = l₂.map some
  | [], [], _ => rfl
  | [], _ :: _, h => by simp at h
  | _ :: _, [], _ => rfl
  | a :: l₁, b :: l₂, h => by
      simp only [List.zipWith_cons_cons, List.map_cons]
      rw [zipWith_const_right l₁ l₂ (by simpa using h)]

theorem alookup_keyed_map (sel : List String) (f : String → PyValue) (c : String) :
    alookup c (sel.map (fun x => (x, f x))) = if c ∈ sel then some (f c) else none := by
  induction sel with
  | nil => simp [alookup]
  | cons a tl ih =>
      by_cases hc : a = c
      · subst hc; simp [alookup]
      · simp [alookup, hc, ih, Ne.symm hc, List.mem_cons]

theorem alookup_dictAppend_self (d : List (String × List PyValue)) (c : String) (v : PyValue) :
    alookup c (dictAppend d c v) = (alookup c d).map (fun l => l ++ [v]) := by
  induction d with
  | nil => simp [dictAppend, alookup]
  | cons a tl ih =>
      by_cases hc : a.1 = c
      · simp [dictAppend, alookup, hc]
      · simp only [dictAppend, List.map_cons, if_neg hc]
        simpa [alookup, hc] using ih

theorem alookup_dictAppend_ne (d : List (String × List PyValue)) (c k : String) (v : PyValue)
    (h : k ≠ c) : alookup k (dictAppend d c v) = alookup k d := by
  unfold dictAppend
  induction d with
  | nil => rfl
  | cons a tl ih =>
      simp only [List.map_cons]
      by_cases hc : a.1 = c
      · have hak : ¬a.1 = k := by rw [hc]; exact Ne.symm h
        simp [alookup, hc, hak, Ne.symm h, ih]
      · by_cases hak : a.1 = k
        · simp [alookup, hc, hak, h]
        · simp [alookup, hc, hak, ih]

theorem alookup_foldl_setKey_const {α : Type} (cols : List String) (v : α) :
    ∀ (agg : List (String × α)) (k : String),
      alookup k (cols.foldl (fun a c => setKey a c v) agg)
        = if k ∈ cols then some v else alookup k agg := by
  induction cols with
  | nil => intro agg k; simp
  | cons c cs ih =>
      intro agg k
      by_cases hk : k = c
      · subst hk
        by_cases hmem : k ∈ cs
        · simp [List.foldl_cons, ih, hmem]
        · simp [List.foldl_cons, ih, hmem, alookup_setKey_self]
      · simp [List.foldl_cons, ih, alookup_setKey_ne _ _ _ _ hk, hk, List.mem_cons]

theorem setColumnScalar_rows (df : DataFrame) (c : String) (v : PyValue) :
    (df.setColumnScalar c v).rows = df.rows.map (fun r => setKey r c v) := rfl

theorem setColumnList_ok (df : DataFrame) (c : String) (vs : List PyValue)
    (out : DataFrame) (h : df.setColumnList c vs = .ok out) :
    vs.length = df.rows.length ∧
    out.rows = (df.rows.zip vs).map (fun rv => setKey rv.1 c rv.2) ∧
    out.cols = (if df.cols.contains c then df.cols else df.cols ++ [c]) := by
  unfold DataFrame.setColumnList at h
  split at h
  · cases h
    exact ⟨by assumption, rfl, by split <;> simp_all⟩
  · cases h

theorem setColumnList_rows_length (df : DataFrame) (c : String) (vs : List PyValue)
    (out : DataFrame) (h : df.setColumnList c vs = .ok out) :
    out.rows.length = df.rows.length := by
  obtain ⟨hlen, hrows, -⟩ := setColumnList_ok df c vs out h
  simp [hrows, List.length_zip, hlen]

theorem setColumnList_alookup_ne (df : DataFrame) (c k : String) (vs : List PyValue)
    (out : DataFrame) (h : df.setColumnList c vs = .ok out) (hk : k ≠ c) :
    out.rows.map (alookup k) = df.rows.map (alookup k) := by
  obtain ⟨hlen, hrows, -⟩ := setColumnList_ok df c vs out h
  rw [hrows, List.map_map]
  have := zip_map_left (fun r => alookup k (setKey r c (PyValue.none))) df.rows vs hlen
  calc ((df.rows.zip vs).map ((alookup k) ∘ fun rv => setKey rv.1 c rv.2))
      = (df.rows.zip vs).map (fun rv => alookup k rv.1) := by
        apply List.map_congr_left
        intro rv _
        exact alookup_setKey_ne rv.1 k c rv.2 hk
    _ = df.rows.map (alookup k) := zip_map_left (fun r => alookup k r) df.rows vs hlen

theorem setColumnList_alookup_self (df : DataFrame) (c : String) (vs : List PyValue)
    (out : DataFrame) (h : df.setColumnList c vs = .ok out) :
    out.rows.map (alookup c) = vs.map some := by
  obtain ⟨hlen, hrows, -⟩ := setColumnList_ok df c vs out h
  rw [hrows, List.map_map]
  calc ((df.rows.zip vs).map ((alookup c) ∘ fun rv => setKey rv.1 c rv.2))
      = (df.rows.zip vs).map (fun rv => some rv.2) := by
        apply List.map_congr_left
        intro rv _
        exact alookup_setKey_self rv.1 c rv.2
    _ = List.zipWith (fun _ v => some v) df.rows vs := zip_map_right (fun _ v => some v) df.rows vs hlen
    _ = vs.map some := zipWith_const_right df.rows vs hlen

theorem select_ok (df : DataFrame) (sel : List String) (out : DataFrame)
    (h : df.select sel = .ok out) :
    out.cols = sel ∧
    out.rows = df.rows.map (fun r => sel.map (fun c => (c, (alookup c r).getD .none))) := by
  unfold DataFrame.select at h
  split at h
  · cases h
  · cases h
    exact ⟨rfl, rfl⟩

theorem alookup_init_empty (sel : List String) (c : String) :
    alookup c (sel.map (fun x => (x, ([] : List PyValue)))) 
      = if c ∈ sel then some [] else none := by
  induction sel with
  | nil => simp [alookup]
  | cons a tl ih =>
      by_cases hc : a = c
      · subst hc; simp [alookup]
      · simp [alookup, hc, ih, Ne.symm hc, List.mem_cons]

theorem appendIdValues_ok (ts : Timeseries) :
    ∀ (cols : List String) (acc out : List (String × List PyValue)), cols.Nodup →
      appendIdValues acc ts cols = .ok out →
      (∀ c ∈ cols, (idLookup ts c).toOption.isSome) ∧
      ∀ k, alookup k out
        = if k ∈ cols then (alookup k acc).map (fun l => l ++ [idVal ts k])
          else alookup k acc := by
  intro cols
  induction cols with
  | nil =>
      intro acc out _ h
      cases h
      exact ⟨by simp, fun k => by simp⟩
  | cons c cs ih =>
      intro acc out hnd h
      have hc_nmem : c ∉ cs := (List.nodup_cons.mp hnd).1
      have hcs_nd : cs.Nodup := (List.nodup_cons.mp hnd).2
      unfold appendIdValues at h
      cases hlv : idLookup ts c with
      | error e => rw [hlv] at h; cases h
      | ok v =>
          rw [hlv] at h
          simp only [bind, Except.bind] at h
          obtain ⟨pres, hform⟩ := ih (dictAppend acc c v) out hcs_nd h
          have hval : idVal ts c = v := by simp [idVal, hlv]
          constructor
          · intro c' hc'
            rcases List.mem_cons.mp hc' with rfl | hmem
            · simp [hlv, Except.toOption]
            · exact pres c' hmem
          · intro k
            by_cases hk : k ∈ cs
            · have hkc : k ≠ c := fun hh => hc_nmem (hh ▸ hk)
              rw [hform k, if_pos hk, if_pos (List.mem_cons.mpr (Or.inr hk)),
                alookup_dictAppend_ne acc c k v hkc]
            · by_cases hkc : k = c
              · subst hkc
                rw [hform k, if_neg hk, if_pos (List.mem_cons.mpr (Or.inl rfl)),
                  alookup_dictAppend_self, hval]
              · rw [hform k, if_neg hk,
                  if_neg (by simp [List.mem_cons, hkc, hk]),
                  alookup_dictAppend_ne acc c k v hkc]

theorem buildIdValues_ok (idcols : List String) (hnd : idcols.Nodup) :
    ∀ (ds : List Timeseries) (acc out : List (String × List PyValue)),
      buildIdValues idcols acc ds = .ok out →
      (∀ ts ∈ ds, ∀ c ∈ idcols, (idLookup ts c).toOption.isSome) ∧
      ∀ k, alookup k out
        = if k ∈ idcols then
            (alookup k acc).map (fun l => l ++ ds.map (fun ts => idVal ts k))
          else alookup k acc := by
  intro ds
  induction ds with
  | nil =>
      intro acc out h
      cases h
      refine ⟨by simp, fun k => ?_⟩
      by_cases hk : k ∈ idcols
      · rw [if_pos hk]
        cases alookup k acc <;> simp
      · rw [if_neg hk]
  | cons ts rest ih =>
      intro acc out h
      unfold buildIdValues at h
      cases ha : appendIdValues acc ts idcols with
      | error e => rw [ha] at h; cases h
      | ok acc1 =>
          rw [ha] at h
          simp only [bind, Except.bind] at h
          obtain ⟨pres1, hform1⟩ := appendIdValues_ok ts idcols acc acc1 hnd ha
          obtain ⟨pres2, hform2⟩ := ih acc1 out h
          constructor
          · intro ts' hts' c hc
            rcases List.mem_cons.mp hts' with rfl | hmem
            · exact pres1 c hc
            · exact pres2 ts' hmem c hc
          · intro k
            rw [hform2 k, hform1 k]
            by_cases hk : k ∈ idcols
            · simp only [if_pos hk]
              cases alookup k acc <;> simp
            · simp only [if_neg hk]

theorem applyIdColumns_ok (vals : List (String × List PyValue)) :
    ∀ (idcols : List String) (item : DataFrame) (agg : List (String × PyValue))
      (out : DataFrame × List (String × PyValue)),
      applyIdColumns item agg idcols vals = .ok out →
      out.2 = idcols.foldl
          (fun a c => setKey a c (PyValue.str METRICS_DATASET.AGGREGATED_ROW)) agg ∧
      out.1.rows.length = item.rows.length ∧
      (∀ k, k ∉ idcols → out.1.rows.map (alookup k) = item.rows.map (alookup k)) := by
  intro idcols
  induction idcols with
  | nil =>
      intro item agg out h
      cases h
      exact ⟨rfl, rfl, fun k _ => rfl⟩
  | cons c cs ih =>
      intro item agg out h
      unfold applyIdColumns at h
      cases hsc : item.setColumnList c ((alookup c vals).getD []) with
      | error e => rw [hsc] at h; cases h
      | ok item1 =>
          rw [hsc] at h
          simp only [bind, Except.bind] at h
          obtain ⟨hagg, hlen, hne⟩ := ih item1
            (setKey agg c (PyValue.str METRICS_DATASET.AGGREGATED_ROW)) out h
          refine ⟨by simpa using hagg, ?_, ?_⟩
          · rw [hlen, setColumnList_rows_length item c _ item1 hsc]
          · intro k hk
            have hkc : k ≠ c := fun hh => hk (hh ▸ List.mem_cons.mpr (Or.inl rfl))
            have hkcs : k ∉ cs := fun hh => hk (List.mem_cons.mpr (Or.inr hh))
            rw [hne k hkcs, setColumnList_alookup_ne item c k _ item1 hsc hkc]

theorem applyIdColumns_values (vals : List (String × List PyValue)) :
    ∀ (idcols : List String), idcols.Nodup →
      ∀ (item : DataFrame) (agg : List (String × PyValue))
        (out : DataFrame × List (String × PyValue)),
        applyIdColumns item agg idcols vals = .ok out →
        ∀ c ∈ idcols, out.1.rows.map (alookup c) = ((alookup c vals).getD []).map some := by
  intro idcols
  induction idcols with
  | nil => intro _ item agg out h c hc; cases hc
  | cons c cs ih =>
      intro hnd item agg out h c' hc'
      unfold applyIdColumns at h
      cases hsc : item.setColumnList c ((alookup c vals).getD []) with
      | error e => rw [hsc] at h; cases h
      | ok item1 =>
          rw [hsc] at h
          simp only [bind, Except.bind] at h
          rcases List.mem_cons.mp hc' with rfl | hmem
          · have hcn : c' ∉ cs := (List.nodup_cons.mp hnd).1
            obtain ⟨-, -, hne⟩ := applyIdColumns_ok vals cs item1
              (setKey agg c' (PyValue.str METRICS_DATASET.AGGREGATED_ROW)) out h
            rw [hne c' hcn, setColumnList_alookup_self item c' _ item1 hsc]
          · exact ih (List.nodup_cons.mp hnd).2 item1
              (setKey agg c (PyValue.str METRICS_DATASET.AGGREGATED_ROW)) out h c' hmem

/-- Counterexample to claim C1 as stated: on the empty dataset
`_format_metrics` raises `IndexError` (line 173 indexes `list_data[0]`)
instead of returning a metrics DataFrame. -/
theorem claim_C1_counterexample :
    Model._format_metrics envW mW aggW itemW dsE = .error PyExc.indexError := rfl

/-- Claim C1 (amended): whenever `_format_metrics` returns, and no identifier
column is named `model` or `model_params`, the metrics DataFrame has one row
per series plus one appended aggregated row whose `target_column` and
identifier cells are `aggregated`, every row holds the model label in the
`model` column, and the columns are ordered `target_column`, identifiers,
`model`, the eight metric keys, training time, `model_params`. -/
theorem claim_C1_format_metrics_shape (env : Env) (m : ModelState)
    (agg : List (String × PyValue)) (item : DataFrame) (ds : ListDataset)
    (hok : (Model._format_metrics env m agg item ds).toOption.isSome = true)
    (hmodel : METRICS_DATASET.MODEL_COLUMN ∉ fmCols (Model._format_metrics env m agg item ds))
    (hmp : METRICS_DATASET.MODEL_PARAMETERS ∉ fmCols (Model._format_metrics env m agg item ds)) :
    (fmDf (Model._format_metrics env m agg item ds)).rows.length
        = ds.list_data.length + 1 ∧
    (fmDf (Model._format_metrics env m agg item ds)).cols
        = [METRICS_DATASET.TARGET_COLUMN]
          ++ fmCols (Model._format_metrics env m agg item ds)
          ++ [METRICS_DATASET.MODEL_COLUMN]
          ++ EVALUATION_METRICS_DESCRIPTIONS.map Prod.fst
          ++ [METRICS_DATASET.TRAINING_TIME, METRICS_DATASET.MODEL_PARAMETERS] ∧
    ((fmDf (Model._format_metrics env m agg item ds)).rows.getLast?).map
        (alookup METRICS_DATASET.TARGET_COLUMN)
      = some (some (PyValue.str METRICS_DATASET.AGGREGATED_ROW)) ∧
    (∀ c ∈ fmCols (Model._format_metrics env m agg item ds),
      ((fmDf (Model._format_metrics env m agg item ds)).rows.getLast?).map (alookup c)
        = some (some (PyValue.str METRICS_DATASET.AGGREGATED_ROW))) ∧
    (∀ r ∈ (fmDf (Model._format_metrics env m agg item ds)).rows,
      alookup METRICS_DATASET.MODEL_COLUMN r
        = some (PyValue.str (env.get_label m.model_name))) := by
  cases hres : Model._format_metrics env m agg item ds with
  | error e => rw [hres] at hok; simp [Except.toOption] at hok
  | ok pr =>
      rw [hres] at hmodel hmp
      simp only [fmCols, fmDf, Except.toOption, Option.map_some', Option.getD_some] at hmodel hmp ⊢
      unfold Model._format_metrics at hres
      simp only [bind, Except.bind] at hres
      cases hds : ds.list_data.head? with
      | none => rw [hds] at hres; simp at hres
      | some ts0 =>
          rw [hds] at hres
          simp only [bind, Except.bind] at hres
          generalize hidc : (match ts0.identifiers with
            | some ids => ids.map Prod.fst
            | none => ([] : List String)) = idc at hres
          cases hbv : buildIdValues idc (idc.map fun c => (c, []))
              ds.list_data with
          | error e => rw [hbv] at hres; simp at hres
          | ok vals =>
              rw [hbv] at hres
              simp only [bind, Except.bind] at hres
              cases hscl : (item.setColumnScalar METRICS_DATASET.MODEL_COLUMN
                  (.str (env.get_label m.model_name))).setColumnList
                  METRICS_DATASET.TARGET_COLUMN
                  (ds.list_data.map (fun ts => PyValue.str ts.target_name)) with
              | error e => rw [hscl] at hres; simp at hres
              | ok item1 =>
                  rw [hscl] at hres
                  simp only [bind, Except.bind] at hres
                  cases hap : applyIdColumns item1
                      (setKey (setKey (setKey agg METRICS_DATASET.MODEL_COLUMN
                          (.str (env.get_label m.model_name)))
                        METRICS_DATASET.TARGET_COLUMN
                        (.str METRICS_DATASET.AGGREGATED_ROW))
                        METRICS_DATASET.TRAINING_TIME
                        (.num (round2 (m.evaluation_time + m.retraining_time))))
                      idc vals with
                  | error e => rw [hap] at hres; simp at hres
                  | ok ia =>
                      rw [hap] at hres
                      simp only [bind, Except.bind] at hres
                      cases hsel : (ia.1.appendRow ia.2).select
                          ([METRICS_DATASET.TARGET_COLUMN] ++ idc
                            ++ [METRICS_DATASET.MODEL_COLUMN]
                            ++ EVALUATION_METRICS_DESCRIPTIONS.map Prod.fst
                            ++ [METRICS_DATASET.TRAINING_TIME]) with
                      | error e => rw [hsel] at hres; simp at hres
                      | ok df1 =>
                          rw [hsel] at hres
                          simp only [bind, Except.bind] at hres
                          cases hjson : Model._get_model_parameters_json env m ds with
                          | error e => rw [hjson] at hres; simp at hres
                          | ok mp =>
                              rw [hjson] at hres
                              simp only [bind, Except.bind, Except.ok.injEq] at hres
                              cases hres
                              simp only [Option.map_some', Option.getD_some] at hmodel hmp ⊢
                              obtain ⟨hagg2, hia1len, hiane⟩ :=
                                applyIdColumns_ok vals idc item1 _ ia hap
                              obtain ⟨hdf1cols, hdf1rows⟩ := select_ok _ _ _ hsel
                              have hitem1len : item1.rows.length = ds.list_data.length := by
                                rw [setColumnList_rows_length _ _ _ _ hscl]
                                have := (setColumnList_ok _ _ _ _ hscl).1
                                simpa using this.symm
                              set sel2 : List String :=
                                [METRICS_DATASET.TARGET_COLUMN] ++ idc
                                  ++ [METRICS_DATASET.MODEL_COLUMN]
                                  ++ EVALUATION_METRICS_DESCRIPTIONS.map Prod.fst
                                  ++ [METRICS_DATASET.TRAINING_TIME] with hsel2
                              set g : List (String × PyValue) → List (String × PyValue) :=
                                fun r => setKey
                                  (sel2.map (fun c => (c, (alookup c r).getD PyValue.none)))
                                  METRICS_DATASET.MODEL_PARAMETERS (PyValue.str mp) with hg
                              have hrows2 : (df1.setColumnScalar METRICS_DATASET.MODEL_PARAMETERS
                                  (PyValue.str mp)).rows
                                  = ia.1.rows.map g ++ [g ia.2] := by
                                rw [setColumnScalar_rows, hdf1rows]
                                show ((ia.1.rows ++ [ia.2]).map _).map _ = _
                                rw [List.map_map, List.map_append]
                                rfl
                              have haggTarget : alookup METRICS_DATASET.TARGET_COLUMN ia.2
                                  = some (PyValue.str METRICS_DATASET.AGGREGATED_ROW) := by
                                rw [hagg2, alookup_foldl_setKey_const]
                                split_ifs with hmem
                                · rfl
                                · rw [alookup_setKey_ne _ _ _ _ (by decide)]
                                  exact alookup_setKey_self _ _ _
                              have haggModel : alookup METRICS_DATASET.MODEL_COLUMN ia.2
                                  = some (PyValue.str (env.get_label m.model_name)) := by
                                rw [hagg2, alookup_foldl_setKey_const, if_neg hmodel,
                                  alookup_setKey_ne _ _ _ _ (by decide),
                                  alookup_setKey_ne _ _ _ _ (by decide)]
                                exact alookup_setKey_self _ _ _
                              have haggId : ∀ c ∈ idc, alookup c ia.2
                                  = some (PyValue.str METRICS_DATASET.AGGREGATED_ROW) := by
                                intro c hc
                                rw [hagg2, alookup_foldl_setKey_const, if_pos hc]
                              have hitemModel : ∀ r ∈ ia.1.rows,
                                  alookup METRICS_DATASET.MODEL_COLUMN r
                                    = some (PyValue.str (env.get_label m.model_name)) := by
                                have h1 := hiane METRICS_DATASET.MODEL_COLUMN hmodel
                                have h2 := setColumnList_alookup_ne _ _ _ _ _ hscl
                                  (show METRICS_DATASET.MODEL_COLUMN
                                      ≠ METRICS_DATASET.TARGET_COLUMN by decide)
                                have h3 : (item.setColumnScalar METRICS_DATASET.MODEL_COLUMN
                                    (PyValue.str (env.get_label m.model_name))).rows.map
                                      (alookup METRICS_DATASET.MODEL_COLUMN)
                                    = item.rows.map
                                        (fun _ => some (PyValue.str (env.get_label m.model_name))) := by
                                  rw [setColumnScalar_rows, List.map_map]
                                  apply List.map_congr_left
                                  intro r _
                                  exact alookup_setKey_self _ _ _
                                intro r hr
                                have hmem : alookup METRICS_DATASET.MODEL_COLUMN r
                                    ∈ ia.1.rows.map (alookup METRICS_DATASET.MODEL_COLUMN) :=
                                  List.mem_map_of_mem _ hr
                                rw [h1, h2, h3] at hmem
                                rcases List.mem_map.mp hmem with ⟨x, -, hx⟩
                                exact hx.symm
                              have hmpsel : METRICS_DATASET.MODEL_PARAMETERS
                                  ∉ ([METRICS_DATASET.TARGET_COLUMN] ++ idc
                                      ++ [METRICS_DATASET.MODEL_COLUMN]
                                      ++ EVALUATION_METRICS_DESCRIPTIONS.map Prod.fst
                                      ++ [METRICS_DATASET.TRAINING_TIME]) := by
                                simp only [List.mem_append, List.mem_cons]
                                push_neg
                                refine ⟨⟨⟨⟨by decide, hmp⟩, by decide⟩, ?_⟩, by decide⟩
                                decide
                              refine ⟨?_, ?_, ?_, ?_, ?_⟩
                              · rw [hrows2]
                                simp only [List.length_append, List.length_map,
                                  List.length_cons, List.length_nil]
                                rw [hia1len, hitem1len]
                              · show (if df1.cols.contains METRICS_DATASET.MODEL_PARAMETERS
                                    then df1.cols else df1.cols
                                      ++ [METRICS_DATASET.MODEL_PARAMETERS]) = _
                                rw [hdf1cols, if_neg (fun hcont =>
                                  hmpsel (List.mem_of_elem_eq_true hcont))]
                                rw [hsel2]
                                simp
                              · rw [hrows2, List.getLast?_concat, Option.map_some', hg]
                                rw [alookup_setKey_ne _ _ _ _ (by decide),
                                  alookup_keyed_map, if_pos (by simp [hsel2]), haggTarget]
                                rfl
                              · intro c hc
                                rw [hrows2, List.getLast?_concat, Option.map_some', hg]
                                have hcne : c ≠ METRICS_DATASET.MODEL_PARAMETERS :=
                                  fun hh => hmp (hh ▸ hc)
                                rw [alookup_setKey_ne _ _ _ _ hcne,
                                  alookup_keyed_map, if_pos (by simp [hsel2, hc]), haggId c hc]
                                rfl
                              · intro r hr
                                rw [hrows2] at hr
                                rcases List.mem_append.mp hr with hr1 | hr2
                                · rcases List.mem_map.mp hr1 with ⟨r0, hr0, rfl⟩
                                  rw [hg]
                                  rw [alookup_setKey_ne _ _ _ _ (by decide),
                                    alookup_keyed_map, if_pos (by simp [hsel2]),
                                    hitemModel r0 hr0]
                                  rfl
                                · rcases List.mem_singleton.mp hr2 with rfl
                                  rw [hg]
                                  rw [alookup_setKey_ne _ _ _ _ (by decide),
                                    alookup_keyed_map, if_pos (by simp [hsel2]), haggModel]
                                  rfl

/-- Witness for the amended claim C1 at a concrete run: the formatting
succeeds, the identifier columns avoid the reserved names, and the result has
one row per series plus the aggregated row. -/
theorem claim_C1_witness :
    (Model._format_metrics envW mW aggW itemW dsW).toOption.isSome = true ∧
    METRICS_DATASET.MODEL_COLUMN ∉ fmCols (Model._format_metrics envW mW aggW itemW dsW) ∧
    METRICS_DATASET.MODEL_PARAMETERS ∉ fmCols (Model._format_metrics envW mW aggW itemW dsW) ∧
    (fmDf (Model._format_metrics envW mW aggW itemW dsW)).rows.length
      = dsW.list_data.length + 1 :=
  ⟨by decide, by decide, by decide,
   (claim_C1_format_metrics_shape envW mW aggW itemW dsW (by decide) (by decide)
      (by decide)).1⟩

theorem idLookup_isSome_iff (ts : Timeseries) (c : String) :
    (idLookup ts c).toOption.isSome = (alookup c (ts.identifiers.getD [])).isSome := by
  cases hid : ts.identifiers with
  | none => simp [idLookup, hid, Except.toOption, alookup]
  | some ids =>
      cases halk : alookup c ids with
      | none => simp [idLookup, hid, halk, Except.toOption]
      | some v => simp [idLookup, hid, halk, Except.toOption]

theorem idVal_eq (ts : Timeseries) (c : String)
    (h : (alookup c (ts.identifiers.getD [])).isSome = true) :
    idVal ts c = PyValue.str ((alookup c (ts.identifiers.getD [])).getD ("")) := by
  unfold idVal idLookup
  cases hid : ts.identifiers with
  | none => rw [hid] at h; simp [alookup] at h
  | some ids =>
      rw [hid] at h
      simp only [Option.getD_some] at h ⊢
      cases halk : alookup c ids with
      | none => rw [halk] at h; simp at h
      | some v => simp [halk]

theorem train_evaluate_ok_format (env : Env) (m : ModelState)
    (tr te : ListDataset) (mf rt : Bool)
    (hok : (Model.train_evaluate env m tr te mf rt).1.toOption.isSome = true) :
    ∃ m' agg item, Model._format_metrics env m' agg item tr
      = .ok (teMetrics (Model.train_evaluate env m tr te mf rt).1,
             teIdCols (Model.train_evaluate env m tr te mf rt).1) := by
  unfold Model.train_evaluate at hok ⊢
  cases h1 : Model._train_estimator env m tr with
  | mk r1 t1 =>
      rw [h1] at hok
      cases r1 with
      | error e => simp [Except.toOption] at hok
      | ok p =>
          simp only at hok ⊢
          cases rt with
          | false =>
              simp only [Bool.false_eq_true, if_false] at hok ⊢
              cases hfm : Model._format_metrics env
                  { m with evaluation_time := env.eval_elapsed }
                  (Model._make_evaluation_predictions env p te).1.1
                  (Model._make_evaluation_predictions env p te).1.2.1 tr with
              | error e => simp [hfm, Except.toOption] at hok
              | ok pr =>
                  obtain ⟨prA, prB⟩ := pr
                  cases mf with
                  | false =>
                      refine ⟨{ m with evaluation_time := env.eval_elapsed },
                        (Model._make_evaluation_predictions env p te).1.1,
                        (Model._make_evaluation_predictions env p te).1.2.1, ?_⟩
                      rw [hfm]
                      simp [teMetrics, teIdCols, Except.toOption]
                  | true =>
                      cases hmed : Model._compute_median_forecasts_timeseries env
                          { m with evaluation_time := env.eval_elapsed }
                          (Model._make_evaluation_predictions env p te).1.2.2 tr with
                      | error e => simp [hfm, hmed, Except.toOption] at hok
                      | ok med =>
                          refine ⟨{ m with evaluation_time := env.eval_elapsed },
                            (Model._make_evaluation_predictions env p te).1.1,
                            (Model._make_evaluation_predictions env p te).1.2.1, ?_⟩
                          rw [hfm]
                          simp [hmed, teMetrics, teIdCols, Except.toOption]
          | true =>
              simp only [if_true] at hok ⊢
              cases htr : Model.train env { m with evaluation_time := env.eval_elapsed }
                  te true with
              | mk r3 t3 =>
                  rw [htr] at hok
                  cases r3 with
                  | error e => simp [Except.toOption] at hok
                  | ok m3 =>
                      simp only at hok ⊢
                      cases hfm : Model._format_metrics env m3
                          (Model._make_evaluation_predictions env p te).1.1
                          (Model._make_evaluation_predictions env p te).1.2.1 tr with
                      | error e => simp [hfm, Except.toOption] at hok
                      | ok pr =>
                          obtain ⟨prA, prB⟩ := pr
                          cases mf with
                          | false =>
                              refine ⟨m3,
                                (Model._make_evaluation_predictions env p te).1.1,
                                (Model._make_evaluation_predictions env p te).1.2.1, ?_⟩
                              rw [hfm]
                              simp [teMetrics, teIdCols, Except.toOption]
                          | true =>
                              cases hmed : Model._compute_median_forecasts_timeseries env m3
                                  (Model._make_evaluation_predictions env p te).1.2.2 tr with
                              | error e => simp [hfm, hmed, Except.toOption] at hok
                              | ok med =>
                                  refine ⟨m3,
                                    (Model._make_evaluation_predictions env p te).1.1,
                                    (Model._make_evaluation_predictions env p te).1.2.1, ?_⟩
                                  rw [hfm]
                                  simp [hmed, teMetrics, teIdCols, Except.toOption]

/-- Counterexample to claim C2 as stated: with an identifier column literally
named `model_params`, the per-series cell is overwritten by the JSON model
parameters string and no longer holds the series' identifier value `x`. -/
theorem claim_C2_counterexample :
    teIdCols (Model.train_evaluate envMP mW dsMP dsMP false false).1
      = [("model_params")] ∧
    ((teMetrics (Model.train_evaluate envMP mW dsMP dsMP false false).1).rows.take 1).map
        (alookup ("model_params"))
      ≠ [some (PyValue.str ("x"))] := by
  constructor
  · decide
  · decide

/-- Claim C2 (amended): for a successful `train_evaluate` run on a non-empty
train dataset, the identifier column list is empty when the first series has
no identifiers and equals the identifier dict keys otherwise, and — provided
no identifier column is named `model_params` — each identifier column of the
per-series rows holds that series' identifier value in dataset order. -/
theorem claim_C2_identifier_columns (env : Env) (m : ModelState)
    (train_list_dataset test_list_dataset : ListDataset) (mf rt : Bool) (ts0 : Timeseries)
    (hds : train_list_dataset.list_data.head? = some ts0)
    (hok : (Model.train_evaluate env m train_list_dataset test_list_dataset mf rt).1.toOption.isSome
      = true)
    (hnd : (teIdCols (Model.train_evaluate env m train_list_dataset test_list_dataset
        mf rt).1).Nodup)
    (hmp : METRICS_DATASET.MODEL_PARAMETERS
      ∉ teIdCols (Model.train_evaluate env m train_list_dataset test_list_dataset mf rt).1) :
    (ts0.identifiers = none →
      teIdCols (Model.train_evaluate env m train_list_dataset test_list_dataset mf rt).1
        = []) ∧
    (∀ ids, ts0.identifiers = some ids →
      teIdCols (Model.train_evaluate env m train_list_dataset test_list_dataset mf rt).1
        = ids.map Prod.fst) ∧
    (∀ ts ∈ train_list_dataset.list_data,
      ∀ c ∈ teIdCols (Model.train_evaluate env m train_list_dataset test_list_dataset mf rt).1,
        (alookup c (ts.identifiers.getD [])).isSome = true) ∧
    (∀ c ∈ teIdCols (Model.train_evaluate env m train_list_dataset test_list_dataset mf rt).1,
      ((teMetrics (Model.train_evaluate env m train_list_dataset test_list_dataset
            mf rt).1).rows.take train_list_dataset.list_data.length).map (alookup c)
        = train_list_dataset.list_data.map
            (fun ts => some (PyValue.str ((alookup c (ts.identifiers.getD [])).getD (""))))) := by
  obtain ⟨m', agg, item, hfmt⟩ :=
    train_evaluate_ok_format env m train_list_dataset test_list_dataset mf rt hok
  unfold Model._format_metrics at hfmt
  simp only [bind, Except.bind] at hfmt
  rw [hds] at hfmt
  simp only [bind, Except.bind] at hfmt
  generalize hidc : (match ts0.identifiers with
    | some ids => ids.map Prod.fst
    | none => ([] : List String)) = idc at hfmt
  cases hbv : buildIdValues idc (idc.map fun c => (c, []))
      train_list_dataset.list_data with
  | error e => rw [hbv] at hfmt; simp at hfmt
  | ok vals =>
      rw [hbv] at hfmt
      simp only [bind, Except.bind] at hfmt
      cases hscl : (item.setColumnScalar METRICS_DATASET.MODEL_COLUMN
          (.str (env.get_label m'.model_name))).setColumnList
          METRICS_DATASET.TARGET_COLUMN
          (train_list_dataset.list_data.map (fun ts => PyValue.str ts.target_name)) with
      | error e => rw [hscl] at hfmt; simp at hfmt
      | ok item1 =>
          rw [hscl] at hfmt
          simp only [bind, Except.bind] at hfmt
          cases hap : applyIdColumns item1
              (setKey (setKey (setKey agg METRICS_DATASET.MODEL_COLUMN
                  (.str (env.get_label m'.model_name)))
                METRICS_DATASET.TARGET_COLUMN
                (.str METRICS_DATASET.AGGREGATED_ROW))
                METRICS_DATASET.TRAINING_TIME
                (.num (round2 (m'.evaluation_time + m'.retraining_time))))
              idc vals with
          | error e => rw [hap] at hfmt; simp at hfmt
          | ok ia =>
              rw [hap] at hfmt
              simp only [bind, Except.bind] at hfmt
              cases hsel : (ia.1.appendRow ia.2).select
                  ([METRICS_DATASET.TARGET_COLUMN] ++ idc
                    ++ [METRICS_DATASET.MODEL_COLUMN]
                    ++ EVALUATION_METRICS_DESCRIPTIONS.map Prod.fst
                    ++ [METRICS_DATASET.TRAINING_TIME]) with
              | error e => rw [hsel] at hfmt; simp at hfmt
              | ok df1 =>
                  rw [hsel] at hfmt
                  simp only [bind, Except.bind] at hfmt
                  cases hjson : Model._get_model_parameters_json env m' train_list_dataset with
                  | error e => rw [hjson] at hfmt; simp at hfmt
                  | ok mp =>
                      rw [hjson] at hfmt
                      simp only [bind, Except.bind, Except.ok.injEq, Prod.mk.injEq] at hfmt
                      obtain ⟨hdf2, hidcols⟩ := hfmt
                      rw [← hidcols] at hnd hmp ⊢
                      rw [← hdf2]
                      obtain ⟨hbv_pres, hbv_form⟩ :=
                        buildIdValues_ok idc hnd train_list_dataset.list_data _ vals hbv
                      have hpres : ∀ ts ∈ train_list_dataset.list_data, ∀ c ∈ idc,
                          (alookup c (ts.identifiers.getD [])).isSome = true := by
                        intro ts hts c hc
                        rw [← idLookup_isSome_iff]
                        exact hbv_pres ts hts c hc
                      refine ⟨?_, ?_, hpres, ?_⟩
                      · intro hid
                        rw [hid] at hidc
                        exact hidc.symm
                      · intro ids hid
                        rw [hid] at hidc
                        exact hidc.symm
                      · intro c hc
                        have hvals : alookup c vals
                            = some (train_list_dataset.list_data.map (fun ts => idVal ts c)) := by
                          have hthis := hbv_form c
                          simp only [alookup_init_empty, if_pos hc, Option.map_some',
                            List.nil_append] at hthis
                          exact hthis
                        have hia : ia.1.rows.map (alookup c)
                            = (train_list_dataset.list_data.map (fun ts => idVal ts c)).map some := by
                          rw [applyIdColumns_values vals idc hnd item1 _ ia hap c hc, hvals]
                          rfl
                        obtain ⟨-, hia1len, -⟩ := applyIdColumns_ok vals idc item1 _ ia hap
                        obtain ⟨hdf1cols, hdf1rows⟩ := select_ok _ _ _ hsel
                        have hitem1len : item1.rows.length = train_list_dataset.list_data.length := by
                          rw [setColumnList_rows_length _ _ _ _ hscl]
                          have hthis := (setColumnList_ok _ _ _ _ hscl).1
                          simpa using hthis.symm
                        have hcne : c ≠ METRICS_DATASET.MODEL_PARAMETERS :=
                          fun hh => hmp (hh ▸ hc)
                        set sel2 : List String :=
                          [METRICS_DATASET.TARGET_COLUMN] ++ idc
                            ++ [METRICS_DATASET.MODEL_COLUMN]
                            ++ EVALUATION_METRICS_DESCRIPTIONS.map Prod.fst
                            ++ [METRICS_DATASET.TRAINING_TIME] with hsel2
                        set g : List (String × PyValue) → List (String × PyValue) :=
                          fun r => setKey
                            (sel2.map (fun x => (x, (alookup x r).getD PyValue.none)))
                            METRICS_DATASET.MODEL_PARAMETERS (PyValue.str mp) with hg
                        have hrows2 : (df1.setColumnScalar METRICS_DATASET.MODEL_PARAMETERS
                            (PyValue.str mp)).rows
                            = ia.1.rows.map g ++ [g ia.2] := by
                          rw [setColumnScalar_rows, hdf1rows]
                          show ((ia.1.rows ++ [ia.2]).map _).map _ = _
                          rw [List.map_map, List.map_append]
                          rfl
                        rw [hrows2]
                        have hlen' : (ia.1.rows.map g).length
                            = train_list_dataset.list_data.length := by
                          rw [List.length_map, hia1len, hitem1len]
                        rw [List.take_left' hlen', List.map_map]
                        have hstep : ∀ r, alookup c (g r)
                            = some ((alookup c r).getD PyValue.none) := by
                          intro r
                          rw [hg]
                          rw [alookup_setKey_ne _ _ _ _ hcne, alookup_keyed_map,
                            if_pos (by simp [hsel2, hc])]
                        calc ia.1.rows.map ((alookup c) ∘ g)
                            = ia.1.rows.map (fun r => some ((alookup c r).getD PyValue.none)) := by
                              apply List.map_congr_left
                              intro r _
                              exact hstep r
                          _ = (ia.1.rows.map (alookup c)).map
                                (fun o => some (o.getD PyValue.none)) := by
                              rw [List.map_map]
                              rfl
                          _ = train_list_dataset.list_data.map
                                (fun ts => some (PyValue.str
                                  ((alookup c (ts.identifiers.getD [])).getD ("")))) := by
                              rw [hia, List.map_map, List.map_map]
                              apply List.map_congr_left
                              intro ts hts
                              simp only [Function.comp, Option.getD_some]
                              rw [idVal_eq ts c (hpres ts hts c hc)]

/-- Witness for the amended claim C2 at a concrete successful run: the first
series carries the identifiers dict `{store: a}` and the returned identifier
column list is exactly `[store]`. -/
theorem claim_C2_witness :
    dsW.list_data.head? = some
      { target_name := "sales", target := [1, 2, 3], identifiers := some [("store", "a")] } ∧
    (Model.train_evaluate envW mW dsW dsW false false).1.toOption.isSome = true ∧
    (teIdCols (Model.train_evaluate envW mW dsW dsW false false).1).Nodup ∧
    METRICS_DATASET.MODEL_PARAMETERS
      ∉ teIdCols (Model.train_evaluate envW mW dsW dsW false false).1 ∧
    teIdCols (Model.train_evaluate envW mW dsW dsW false false).1 = [("store")] :=
  ⟨rfl, by decide, by decide, by decide,
   (claim_C2_identifier_columns envW mW dsW dsW false false _ rfl (by decide) (by decide)
      (by decide)).2.1 [("store", "a")] rfl⟩

theorem glookup_addToGroups_self (d : List (Option (List (String × String)) × List Series))
    (k : Option (List (String × String))) (s : Series) :
    glookup k (addToGroups d k s) = some ((glookup k d).getD [] ++ [s]) := by
  induction d with
  | nil => simp [addToGroups, glookup]
  | cons a tl ih =>
      by_cases hk : a.1 = k
      · simp [addToGroups, glookup, hk]
      · simp [addToGroups, glookup, hk, ih]

theorem glookup_addToGroups_ne (d : List (Option (List (String × String)) × List Series))
    (k k' : Option (List (String × String))) (s : Series) (h : k' ≠ k) :
    glookup k' (addToGroups d k s) = glookup k' d := by
  induction d with
  | nil => simp [addToGroups, glookup, Ne.symm h]
  | cons a tl ih =>
      by_cases hk : a.1 = k
      · have hthis : ¬a.1 = k' := by rw [hk]; exact Ne.symm h
        simp [addToGroups, glookup, hk, hthis, Ne.symm h]
      · by_cases hk' : a.1 = k'
        · simp [addToGroups, glookup, hk, hk', h]
        · simp [addToGroups, glookup, hk, hk', ih]

theorem join_addToGroups (d : List (Option (List (String × String)) × List Series))
    (k : Option (List (String × String))) (s : Series) :
    List.Perm ((addToGroups d k s).map Prod.snd).flatten
      ((d.map Prod.snd).flatten ++ [s]) := by
  induction d with
  | nil => simp [addToGroups]
  | cons a tl ih =>
      by_cases hk : a.1 = k
      · simp only [addToGroups, if_pos hk, List.map_cons, List.flatten_cons]
        rw [List.append_assoc, List.append_assoc]
        exact List.Perm.append_left a.2 (List.perm_append_comm ..)
      · simp only [addToGroups, if_neg hk, List.map_cons, List.flatten_cons]
        rw [List.append_assoc]
        exact List.Perm.append_left a.2 ih

theorem foldl_addToGroups_glookup {α : Type} (kf : α → Option (List (String × String)))
    (vf : α → Series) :
    ∀ (l : List α) (acc : List (Option (List (String × String)) × List Series))
      (k : Option (List (String × String))),
      glookup k (l.foldl (fun d x => addToGroups d (kf x) (vf x)) acc)
        = match glookup k acc with
          | some g => some (g ++ (l.filter (fun x => decide (kf x = k))).map vf)
          | none =>
              if (l.filter (fun x => decide (kf x = k))).isEmpty then none
              else some ((l.filter (fun x => decide (kf x = k))).map vf) := by
  intro l
  induction l with
  | nil =>
      intro acc k
      cases h : glookup k acc <;> simp [h]
  | cons x l ih =>
      intro acc k
      by_cases hk : kf x = k
      · subst hk
        rw [List.foldl_cons, ih, glookup_addToGroups_self]
        cases h : glookup (kf x) acc <;>
          simp [h, List.filter_cons]
      · rw [List.foldl_cons, ih, glookup_addToGroups_ne _ _ _ _ (Ne.symm hk)]
        cases h : glookup k acc <;>
          simp [h, List.filter_cons, hk]

theorem foldl_addToGroups_join {α : Type} (kf : α → Option (List (String × String)))
    (vf : α → Series) :
    ∀ (l : List α) (acc : List (Option (List (String × String)) × List Series)),
      List.Perm
        (((l.foldl (fun d x => addToGroups d (kf x) (vf x)) acc).map Prod.snd).flatten)
        ((acc.map Prod.snd).flatten ++ l.map vf) := by
  intro l
  induction l with
  | nil => intro acc; simp
  | cons x l ih =>
      intro acc
      rw [List.foldl_cons]
      refine (ih _).trans ?_
      refine (List.Perm.append_right (l.map vf) (join_addToGroups acc (kf x) (vf x))).trans ?_
      rw [List.append_assoc]
      simp

theorem pairLe_iff (a b : String × String) :
    pairLe a b = true ↔ a.1 < b.1 ∨ (a.1 = b.1 ∧ a.2 ≤ b.2) := by
  simp [pairLe, Bool.or_eq_true, Bool.and_eq_true, decide_eq_true_eq]

theorem pairLe_trans (a b c : String × String)
    (hab : pairLe a b = true) (hbc : pairLe b c = true) : pairLe a c = true := by
  rw [pairLe_iff] at hab hbc ⊢
  rcases hab with h1 | ⟨h1, h1'⟩ <;> rcases hbc with h2 | ⟨h2, h2'⟩
  · exact Or.inl (lt_trans h1 h2)
  · exact Or.inl (h2 ▸ h1)
  · exact Or.inl (h1 ▸ h2)
  · exact Or.inr ⟨h1.trans h2, le_trans h1' h2'⟩

theorem pairLe_total (a b : String × String) : (pairLe a b || pairLe b a) = true := by
  rw [Bool.or_eq_true]
  rcases lt_trichotomy a.1 b.1 with h | h | h
  · exact Or.inl ((pairLe_iff a b).mpr (Or.inl h))
  · rcases le_total a.2 b.2 with h2 | h2
    · exact Or.inl ((pairLe_iff a b).mpr (Or.inr ⟨h, h2⟩))
    · exact Or.inr ((pairLe_iff b a).mpr (Or.inr ⟨h.symm, h2⟩))
  · exact Or.inr ((pairLe_iff b a).mpr (Or.inl h))

theorem pairLe_antisymm (a b : String × String)
    (hab : pairLe a b = true) (hba : pairLe b a = true) : a = b := by
  rw [pairLe_iff] at hab hba
  rcases hab with h1 | ⟨h1, h1'⟩ <;> rcases hba with h2 | ⟨h2, h2'⟩
  · exact absurd h2 (lt_asymm h1)
  · exact absurd h1 (by rw [h2]; exact lt_irrefl a.1)
  · exact absurd h2 (by rw [h1]; exact lt_irrefl b.1)
  · exact Prod.ext h1 (le_antisymm h1' h2')

theorem sortedIdentifiers_perm (ids : List (String × String)) :
    List.Perm (sortedIdentifiers ids) ids :=
  List.mergeSort_perm ids pairLe

theorem sortedIdentifiers_sorted (ids : List (String × String)) :
    List.Pairwise (fun a b => pairLe a b = true) (sortedIdentifiers ids) :=
  List.sorted_mergeSort pairLe_trans pairLe_total ids

theorem sortedIdentifiers_perm_invariant (ids ids' : List (String × String))
    (h : List.Perm ids ids') : sortedIdentifiers ids = sortedIdentifiers ids' := by
  haveI : IsAntisymm (String × String) (fun a b => pairLe a b = true) :=
    ⟨fun a b => pairLe_antisymm a b⟩
  exact List.eq_of_perm_of_sorted
    ((sortedIdentifiers_perm ids).trans (h.trans (sortedIdentifiers_perm ids').symm))
    (sortedIdentifiers_sorted ids) (sortedIdentifiers_sorted ids')

/-- Claim C10: with as many forecasts as series, the computed dict partitions
the renamed median series: the concatenation of all groups is a permutation
of the per-pair series (each appears exactly once), each key maps to exactly
the series of the pairs with that key in original order, the key of a series
is its sorted identifier items (`none` without identifiers), sorting is a
sorted permutation under `pairLe`, and the key is insensitive to identifier
dict ordering. -/
theorem claim_C10_median_forecast_grouping (env : Env) (m : ModelState)
    (forecasts_list : List Forecast) (train_list_dataset : ListDataset)
    (hlen : forecasts_list.length = train_list_dataset.list_data.length) :
    (Model._compute_median_forecasts_timeseries env m forecasts_list
        train_list_dataset).toOption.isSome = true ∧
    List.Perm
      (((mfGroups (Model._compute_median_forecasts_timeseries env m forecasts_list
          train_list_dataset)).map Prod.snd).flatten)
      ((forecasts_list.zip train_list_dataset.list_data).map
        (fun p => { env.quantile_forecasts_series p.1 ((1 : ℚ)/2) m.custom_frequency with
                    name := m.model_name ++ "_" ++ p.2.target_name })) ∧
    (∀ k, glookup k (mfGroups (Model._compute_median_forecasts_timeseries env m
          forecasts_list train_list_dataset))
      = (if ((forecasts_list.zip train_list_dataset.list_data).filter
              (fun p => decide (timeseriesIdentifierKey p.2 = k))).isEmpty then none
         else some (((forecasts_list.zip train_list_dataset.list_data).filter
              (fun p => decide (timeseriesIdentifierKey p.2 = k))).map
            (fun p => { env.quantile_forecasts_series p.1 ((1 : ℚ)/2) m.custom_frequency with
                        name := m.model_name ++ "_" ++ p.2.target_name })))) ∧
    (∀ ts : Timeseries, timeseriesIdentifierKey ts = ts.identifiers.map sortedIdentifiers) ∧
    (∀ ids : List (String × String), List.Perm (sortedIdentifiers ids) ids) ∧
    (∀ ids : List (String × String),
      List.Pairwise (fun a b => pairLe a b = true) (sortedIdentifiers ids)) ∧
    (∀ ids ids' : List (String × String), List.Perm ids ids' →
      sortedIdentifiers ids = sortedIdentifiers ids') := by
  have hle : forecasts_list.length ≤ train_list_dataset.list_data.length := le_of_eq hlen
  have hres : Model._compute_median_forecasts_timeseries env m forecasts_list
      train_list_dataset
      = .ok ((forecasts_list.zip train_list_dataset.list_data).foldl
          (fun d fts => addToGroups d (timeseriesIdentifierKey fts.2)
            { env.quantile_forecasts_series fts.1 ((1 : ℚ)/2) m.custom_frequency with
              name := m.model_name ++ "_" ++ fts.2.target_name }) []) := by
    unfold Model._compute_median_forecasts_timeseries
    rw [if_pos hle]
  refine ⟨?_, ?_, ?_, fun ts => rfl, sortedIdentifiers_perm, sortedIdentifiers_sorted,
    sortedIdentifiers_perm_invariant⟩
  · rw [hres]; rfl
  · rw [hres]
    have h := foldl_addToGroups_join (fun p : Forecast × Timeseries => timeseriesIdentifierKey p.2)
      (fun p : Forecast × Timeseries =>
        { env.quantile_forecasts_series p.1 ((1 : ℚ)/2) m.custom_frequency with
          name := m.model_name ++ "_" ++ p.2.target_name })
      (forecasts_list.zip train_list_dataset.list_data) []
    simpa [mfGroups, Except.toOption] using h
  · intro k
    rw [hres]
    have h := foldl_addToGroups_glookup
      (fun p : Forecast × Timeseries => timeseriesIdentifierKey p.2)
      (fun p : Forecast × Timeseries =>
        { env.quantile_forecasts_series p.1 ((1 : ℚ)/2) m.custom_frequency with
          name := m.model_name ++ "_" ++ p.2.target_name })
      (forecasts_list.zip train_list_dataset.list_data) [] k
    simpa [mfGroups, Except.toOption, glookup] using h

/-- Witness for claim C10: two forecasts for the two-series dataset; the
computation succeeds. -/
theorem claim_C10_witness :
    ([⟨1⟩, ⟨2⟩] : List Forecast).length = dsW.list_data.length ∧
    (Model._compute_median_forecasts_timeseries envW mW
        [⟨1⟩, ⟨2⟩] dsW).toOption.isSome = true :=
  ⟨rfl, (claim_C10_median_forecast_grouping envW mW [⟨1⟩, ⟨2⟩] dsW rfl).1⟩
